import Mathlib

/-!
# ProcessRunner: a shallow embedding of `src/ProcessRunner/main.cpp`

The program is a process supervisor.  Its main thread (`main`) attaches to or
spawns a target process, waits for either the target's termination or a
shutdown request, and restarts the target after `RESTART_DELAY`.  A console
control handler (`ConsoleHandler`), run by the host in a thread of its own at
any moment after `SetConsoleCtrlHandler` succeeded, clears `isLooping` and
signals `startShutdownHandle`.

The embedding is a labelled transition system.  Every statement of `main`
that reads or writes shared state or calls the operating system is one program
point (`PC`) and one atomic step (`mainStep`); every such statement of
`ConsoleHandler` is one atomic step of a handler thread (`handlerStep`).  The
outcomes chosen by the operating system (success or failure of a call, the
value it returns, whether a timeout has elapsed) are the `Env` argument of a
step; the moment at which the host delivers a console notification or at which
the target terminates is an action of its own (`Act.ctrl`, `Act.targetExit`).
An execution is a list of actions (`run`).

Modelling assumptions, all about code that is not part of the repository:
* `CreateEventA` succeeds (the source does not test its result); both events
  are auto-reset events created unsignaled (`bManualReset = FALSE`,
  `bInitialState = FALSE`), so a wait that is satisfied by an event resets it;
* `WaitForMultipleObjects` with `bWaitAll = FALSE` reports the lowest index
  among the signaled handles; a wait on a `NULL` handle fails at once;
* a timed wait returns `WAIT_OBJECT_0` when the event is signaled and can time
  out only while it is unsignaled;
* `strtol` follows the C standard with a 32-bit `long`;
* handles are numbered from a counter, `0` being `NULL`;
* a console notification reaches `ConsoleHandler` only once the handler is
  registered (`Act.ctrl` needs `registered`); what the host does after the
  handler has returned (it ends the process after a handled
  `CTRL_CLOSE_EVENT`) is not modelled, so the executions of the model include
  those of the program.

The trace of a state lists the calls and the printed lines of the main thread
only; the line `Exiting` that a handler prints at line 144 is not recorded.
-/

namespace ProcessRunner

/-! ## Constants -/

/-- The macro `RESTART_DELAY` of line 19, in milliseconds. -/
def RESTART_DELAY : Nat := 5000

/-- The value of `EXIT_SUCCESS` in `<stdlib.h>`. -/
def EXIT_SUCCESS : Nat := 0

/-- The value of `EXIT_FAILURE` in `<stdlib.h>`. -/
def EXIT_FAILURE : Nat := 1

/-- The value of `CTRL_C_EVENT` in the Windows SDK. -/
def CTRL_C_EVENT : Nat := 0

/-- The value of `CTRL_CLOSE_EVENT` in the Windows SDK. -/
def CTRL_CLOSE_EVENT : Nat := 2

/-- The largest `long` of the platform (32 bits). -/
def LONG_MAX : Int := 2147483647

/-- The smallest `long` of the platform (32 bits). -/
def LONG_MIN : Int := -2147483648

/-! ## The C library functions used by the argument check (lines 61 to 64) -/

/-- The C locale's `isspace`: space, and the control characters 9 to 13. -/
def isspace (c : Char) : Bool :=
  c.toNat == 32 || (9 ≤ c.toNat && c.toNat ≤ 13)

/-- The C locale's `isdigit`. -/
def isdigit (c : Char) : Bool :=
  48 ≤ c.toNat && c.toNat ≤ 57

/-- Number of leading white-space characters. -/
def skipSpaces : List Char → Nat
  | [] => 0
  | c :: cs => if isspace c then skipSpaces cs + 1 else 0

/-- Length of an optional sign (`+` or `-`) at the head of the string. -/
def signLen : List Char → Nat
  | [] => 0
  | c :: _ => if c.toNat == 45 || c.toNat == 43 then 1 else 0

/-- Whether the string starts with a minus sign. -/
def isNegative : List Char → Bool
  | [] => false
  | c :: _ => c.toNat == 45

/-- Number of leading decimal digits. -/
def digitCount : List Char → Nat
  | [] => 0
  | c :: cs => if isdigit c then digitCount cs + 1 else 0

/-- Value of the leading decimal digits, `acc` being the value read so far. -/
def digitValue (acc : Nat) : List Char → Nat
  | [] => acc
  | c :: cs => if isdigit c then digitValue (acc * 10 + (c.toNat - 48)) cs else acc

/-- Saturation of a mathematical integer to the range of `long`. -/
def clampLong (v : Int) : Int :=
  if v > LONG_MAX then LONG_MAX else if v < LONG_MIN then LONG_MIN else v

/-- C `strtol(s, &end, 10)`: the converted value and the offset of `end` from
the start of `s`.  White space and one sign are skipped; when no digit follows,
no conversion is performed, the value is `0` and `end` is `s` itself. -/
def strtol (s : List Char) : Int × Nat :=
  let ws := skipSpaces s
  let afterWs := s.drop ws
  let sl := signLen afterWs
  let body := afterWs.drop sl
  let n := digitCount body
  if n = 0 then (0, 0)
  else
    let v : Int := digitValue 0 body
    (clampLong (if isNegative afterWs then -v else v), ws + sl + n)

/-- C `strnlen_s(s, maxsize)` for a NUL-terminated string whose characters
before the terminator are `s`. -/
def strnlen_s (s : List Char) (maxsize : Nat) : Nat :=
  min s.length maxsize

/-- Conversion of a `long` to `DWORD` (assignment of line 63). -/
def toDWORD (v : Int) : Nat :=
  (v % 4294967296).toNat

/-! ## Observable operations -/

/-- Result of a wait call. -/
inductive WaitResult
  | object0
  | object1
  | timeout
  | failed
  deriving DecidableEq, Repr

/-- The lines the program prints. -/
inductive Msg
  | usage
  | banner
  | handlerError
  | invalidPid (arg : List Char)
  | attachFailed (pid err : Nat)
  | attached (pid : Nat)
  | starting
  | startFailed (err : Nat)
  | terminated (code : Nat)
  | terminatedUnknown (err : Nat)
  deriving DecidableEq, Repr

/-- What the main thread does, in program order. -/
inductive Ev
  | print (m : Msg)
  | setConsoleCtrlHandler (ok : Bool)
  | createEvent
  | openProcess (pid : Nat) (ok : Bool)
  | createProcess (cmd : List Char) (ok : Bool)
  | waitForMultipleObjects (r : WaitResult)
  | getExitCodeProcess (h : Nat) (ok : Bool)
  | closeHandle (h : Nat)
  | waitForSingleObject (ms : Nat) (r : WaitResult)
  | setEvent
  | exit (code : Nat)
  deriving DecidableEq, Repr

/-- What the operating system answers to the call made by a step: whether the
call succeeds, the number it yields (a process id, an exit code or an error
code) and, for a timed wait, whether the timeout has elapsed. -/
structure Env where
  ok : Bool
  val : Nat
  elapsed : Bool
  deriving DecidableEq, Repr

/-! ## Program points -/

/-- Program points of `main`; the comment gives the source line executed by the
step that leaves the point. -/
inductive PC
  | start          -- line 33
  | setHandler     -- line 42
  | createStart    -- line 48
  | createEnd      -- line 52
  | initFlag       -- line 54
  | parseArg       -- lines 56 to 69
  | openProc       -- line 70
  | attWait        -- line 81
  | attCheck1      -- line 83
  | attReport      -- line 85
  | attClose       -- line 88
  | attCheck2      -- line 90
  | attDelay       -- line 92
  | loopGuard      -- line 96
  | spawn          -- lines 105 to 113
  | spWait         -- line 117
  | spCheck1       -- line 119
  | spReport       -- line 121
  | spCloseProc    -- line 124
  | spCloseThread  -- line 125
  | spCheck2       -- line 127
  | spDelay        -- line 129
  | signalEnd      -- lines 133 and 134
  | done (code : Nat)
  deriving DecidableEq, Repr

/-- Program points of one invocation of `ConsoleHandler`. -/
inductive HPC
  | entry          -- line 140
  | setFlag        -- line 145
  | signal         -- line 146
  | waitEnd        -- line 149
  | returned (handled : Bool)
  deriving DecidableEq, Repr

/-- One invocation of `ConsoleHandler`, run by the host in its own thread. -/
structure HThread where
  dwType : Nat
  pc : HPC
  deriving DecidableEq, Repr

/-! ## State -/

/-- The globals of lines 21 to 23.  An event handle is `none` while it is
`NULL` and `some b` once created, `b` telling whether the event is signaled. -/
structure Shared where
  isLooping : Bool
  startEvt : Option Bool
  endEvt : Option Bool
  deriving DecidableEq, Repr

/-- The whole state of an execution. -/
structure State extends Shared where
  argv : List (List Char)
  pc : PC
  registered : Bool
  pid : Nat
  hProcess : Nat
  hThread : Nat
  nextHandle : Nat
  openProcs : List Nat
  openThreads : List Nat
  targetExited : Bool
  handlers : List HThread
  trace : List Ev
  deriving DecidableEq, Repr

/-- State at program start: globals are zero-initialised. -/
def init (argv : List (List Char)) : State where
  isLooping := false
  startEvt := none
  endEvt := none
  argv := argv
  pc := PC.start
  registered := false
  pid := 0
  hProcess := 0
  hThread := 0
  nextHandle := 1
  openProcs := []
  openThreads := []
  targetExited := false
  handlers := []
  trace := []

/-! ## The main thread -/

/-- Adds events to the trace of the main thread. -/
def State.emit (s : State) (evs : List Ev) : State :=
  { s with trace := s.trace ++ evs }

/-- Moves the main thread to another program point. -/
def State.goto (s : State) (p : PC) : State :=
  { s with pc := p }

/-- `HandleProcessExit` (lines 156 to 170): one call of `GetExitCodeProcess`
and one printed line, which depends on whether the call succeeded. -/
def HandleProcessExit (process : Nat) (e : Env) : List Ev :=
  [Ev.getExitCodeProcess process e.ok,
   Ev.print (if e.ok then Msg.terminated e.val else Msg.terminatedUnknown e.val)]

/-- `WaitForMultipleObjects(2, waitHandles, FALSE, INFINITE)` of lines 81 and
117, with `waitHandles[0]` the shutdown-request event and `waitHandles[1]` the
target: the result and the new state of the event, or `none` while the call
blocks. -/
def waitAny (g : Shared) (targetExited : Bool) : Option (WaitResult × Option Bool) :=
  match g.startEvt with
  | none => some (WaitResult.failed, none)
  | some true => some (WaitResult.object0, some false)
  | some false => if targetExited then some (WaitResult.object1, some false) else none

/-- `WaitForSingleObject(h, ms)` with a finite timeout on an auto-reset event
whose state is `evt`; `elapsed` tells whether the timeout has run out. -/
def waitTimed (evt : Option Bool) (elapsed : Bool) : Option (WaitResult × Option Bool) :=
  match evt with
  | none => some (WaitResult.failed, none)
  | some true => some (WaitResult.object0, some false)
  | some false => if elapsed then some (WaitResult.timeout, some false) else none

/-- `SetEvent(h)`: signals the event when the handle is one. -/
def setEvent (evt : Option Bool) : Option Bool :=
  evt.map fun _ => true

/-- The command line `argv[1]`. -/
def State.cmd (s : State) : List Char :=
  s.argv.getD 1 []

/-- One step of `main` from the state `s`, the operating system answering `e`;
`none` when the main thread is blocked in a wait or has returned. -/
def mainStep (s : State) (e : Env) : Option State :=
  match s.pc with
  | PC.start =>
    if s.argv.length < 2 ∨ s.argv.length > 3 then
      some ((s.emit [Ev.print Msg.usage, Ev.exit EXIT_SUCCESS]).goto (PC.done EXIT_SUCCESS))
    else
      some ((s.emit [Ev.print Msg.banner]).goto PC.setHandler)
  | PC.setHandler =>
    if e.ok then
      some (({ s with registered := true }.emit [Ev.setConsoleCtrlHandler true]).goto
        PC.createStart)
    else
      some ((s.emit [Ev.setConsoleCtrlHandler false, Ev.print Msg.handlerError,
        Ev.exit EXIT_FAILURE]).goto (PC.done EXIT_FAILURE))
  | PC.createStart =>
    some (({ s with startEvt := some false }.emit [Ev.createEvent]).goto PC.createEnd)
  | PC.createEnd =>
    some (({ s with endEvt := some false }.emit [Ev.createEvent]).goto PC.initFlag)
  | PC.initFlag =>
    some ({ s with isLooping := true }.goto PC.parseArg)
  | PC.parseArg =>
    if s.argv.length = 3 then
      let arg := s.argv.getD 2 []
      let len := strnlen_s arg 128
      let r := strtol arg
      let s1 := { s with pid := toDWORD r.1 }
      if len > r.2 then
        some ((s1.emit [Ev.print (Msg.invalidPid arg), Ev.exit EXIT_FAILURE]).goto
          (PC.done EXIT_FAILURE))
      else
        some (s1.goto PC.openProc)
    else
      some (s.goto PC.loopGuard)
  | PC.openProc =>
    if e.ok then
      some (({ s with
          hProcess := s.nextHandle
          nextHandle := s.nextHandle + 1
          openProcs := s.nextHandle :: s.openProcs
          targetExited := false }.emit
        [Ev.openProcess s.pid true, Ev.print (Msg.attached s.pid)]).goto PC.attWait)
    else
      some ((s.emit [Ev.openProcess s.pid false, Ev.print (Msg.attachFailed s.pid e.val),
        Ev.exit EXIT_FAILURE]).goto (PC.done EXIT_FAILURE))
  | PC.attWait =>
    (waitAny s.toShared s.targetExited).map fun r =>
      ({ s with startEvt := r.2 }.emit [Ev.waitForMultipleObjects r.1]).goto PC.attCheck1
  | PC.attCheck1 =>
    some (s.goto (if s.isLooping then PC.attReport else PC.attClose))
  | PC.attReport =>
    some ((s.emit (HandleProcessExit s.hProcess e)).goto PC.attClose)
  | PC.attClose =>
    some (({ s with openProcs := s.openProcs.erase s.hProcess }.emit
      [Ev.closeHandle s.hProcess]).goto PC.attCheck2)
  | PC.attCheck2 =>
    some (s.goto (if s.isLooping then PC.attDelay else PC.loopGuard))
  | PC.attDelay =>
    (waitTimed s.startEvt e.elapsed).map fun r =>
      ({ s with startEvt := r.2 }.emit [Ev.waitForSingleObject RESTART_DELAY r.1]).goto
        PC.loopGuard
  | PC.loopGuard =>
    some (s.goto (if s.isLooping then PC.spawn else PC.signalEnd))
  | PC.spawn =>
    if e.ok then
      some (({ s with
          pid := e.val
          hProcess := s.nextHandle
          hThread := s.nextHandle + 1
          nextHandle := s.nextHandle + 2
          openProcs := s.nextHandle :: s.openProcs
          openThreads := (s.nextHandle + 1) :: s.openThreads
          targetExited := false }.emit
        [Ev.print Msg.starting, Ev.createProcess s.cmd true,
          Ev.print (Msg.attached e.val)]).goto PC.spWait)
    else
      some ((s.emit [Ev.print Msg.starting, Ev.createProcess s.cmd false,
        Ev.print (Msg.startFailed e.val), Ev.exit EXIT_FAILURE]).goto (PC.done EXIT_FAILURE))
  | PC.spWait =>
    (waitAny s.toShared s.targetExited).map fun r =>
      ({ s with startEvt := r.2 }.emit [Ev.waitForMultipleObjects r.1]).goto PC.spCheck1
  | PC.spCheck1 =>
    some (s.goto (if s.isLooping then PC.spReport else PC.spCloseProc))
  | PC.spReport =>
    some ((s.emit (HandleProcessExit s.hProcess e)).goto PC.spCloseProc)
  | PC.spCloseProc =>
    some (({ s with openProcs := s.openProcs.erase s.hProcess }.emit
      [Ev.closeHandle s.hProcess]).goto PC.spCloseThread)
  | PC.spCloseThread =>
    some (({ s with openThreads := s.openThreads.erase s.hThread }.emit
      [Ev.closeHandle s.hThread]).goto PC.spCheck2)
  | PC.spCheck2 =>
    some (s.goto (if s.isLooping then PC.spDelay else PC.loopGuard))
  | PC.spDelay =>
    (waitTimed s.startEvt e.elapsed).map fun r =>
      ({ s with startEvt := r.2 }.emit [Ev.waitForSingleObject RESTART_DELAY r.1]).goto
        PC.loopGuard
  | PC.signalEnd =>
    some (({ s with endEvt := setEvent s.endEvt }.emit
      [Ev.setEvent, Ev.exit EXIT_SUCCESS]).goto (PC.done EXIT_SUCCESS))
  | PC.done _ => none

/-! ## The console control handler -/

/-- The `switch` of `ConsoleHandler` (lines 140 to 143). -/
def handles (dwType : Nat) : Bool :=
  dwType == CTRL_C_EVENT || dwType == CTRL_CLOSE_EVENT

/-- One step of a handler thread on the globals: the new globals and the
thread's next program point, or `none` while the thread is blocked in its wait
or after it has returned. -/
def handlerStepShared (g : Shared) (t : HThread) (e : Env) : Option (Shared × HThread) :=
  match t.pc with
  | HPC.entry =>
    some (g, { t with pc := if handles t.dwType then HPC.setFlag else HPC.returned false })
  | HPC.setFlag =>
    some ({ g with isLooping := false }, { t with pc := HPC.signal })
  | HPC.signal =>
    some ({ g with startEvt := setEvent g.startEvt }, { t with pc := HPC.waitEnd })
  | HPC.waitEnd =>
    (waitTimed g.endEvt e.elapsed).map fun r =>
      ({ g with endEvt := r.2 }, { t with pc := HPC.returned true })
  | HPC.returned _ => none

/-- One step of the handler thread number `i`. -/
def handlerStep (s : State) (i : Nat) (e : Env) : Option State :=
  match s.handlers.get? i with
  | none => none
  | some t =>
    (handlerStepShared s.toShared t e).map fun r =>
      { s with
        isLooping := r.1.isLooping
        startEvt := r.1.startEvt
        endEvt := r.1.endEvt
        handlers := s.handlers.set i r.2 }

/-- `ConsoleHandler` (lines 138 to 153) run from entry to return without any
other thread in between: the value returned and the globals it leaves.  The
wait of line 149 ends at the latest when its 2000 ms have run out, so it
consumes the completion event when that is signaled and changes nothing
otherwise. -/
def ConsoleHandler (dwType : Nat) (g : Shared) : Bool × Shared :=
  if handles dwType then
    (true,
      { isLooping := false
        startEvt := setEvent g.startEvt
        endEvt := match g.endEvt with
          | some true => some false
          | other => other })
  else
    (false, g)

/-! ## Executions -/

/-- What can happen next: a step of `main`, the host delivering a console
notification (which starts a handler thread), a step of a handler thread, or
the target process terminating. -/
inductive Act
  | main (e : Env)
  | ctrl (dwType : Nat)
  | handler (i : Nat) (e : Env)
  | targetExit
  deriving DecidableEq, Repr

/-- One action; `none` when the action is not possible in `s`. -/
def step (s : State) : Act → Option State
  | Act.main e => mainStep s e
  | Act.ctrl dwType =>
    if s.registered then
      some { s with handlers := s.handlers ++ [{ dwType := dwType, pc := HPC.entry }] }
    else none
  | Act.handler i e => handlerStep s i e
  | Act.targetExit =>
    if s.openProcs = [] then none else some { s with targetExited := true }

/-- An execution: the actions are taken one after the other. -/
def run (s : State) : List Act → Option State
  | [] => some s
  | a :: as => (step s a).bind fun s1 => run s1 as

/-! ## Vocabulary of the properties -/

/-- Program points at which `main` holds an open handle to its target: from
the successful `OpenProcess` or `CreateProcessA` to the `CloseHandle` of the
process handle. -/
def holdsTarget : PC → Bool
  | PC.attWait | PC.attCheck1 | PC.attReport | PC.attClose
  | PC.spWait | PC.spCheck1 | PC.spReport | PC.spCloseProc => true
  | _ => false

/-- Program points from which `main` will not execute the assignment
`isLooping = true` of line 54 (again): those after line 54, and the return. -/
def pastInit : PC → Bool
  | PC.start | PC.setHandler | PC.createStart | PC.createEnd | PC.initFlag => false
  | _ => true

/-- Program points after the registration of the handler (line 42). -/
def pastRegister : PC → Bool
  | PC.start | PC.setHandler | PC.done _ => false
  | _ => true

/-- Program points after the creation of the shutdown-request event (line 48). -/
def pastCreateStart : PC → Bool
  | PC.start | PC.setHandler | PC.createStart | PC.done _ => false
  | _ => true

/-- Program points after the creation of the completion event (line 52). -/
def pastCreateEnd : PC → Bool
  | PC.start | PC.setHandler | PC.createStart | PC.createEnd | PC.done _ => false
  | _ => true

/-- Program points of the wait for the target or a shutdown request (lines 81
and 117). -/
def atDualWait : PC → Bool
  | PC.attWait | PC.spWait => true
  | _ => false

/-- Program points of the tests of `isLooping` that follow the wait for the
target (lines 83 and 119). -/
def atFlagTest : PC → Bool
  | PC.attCheck1 | PC.spCheck1 => true
  | _ => false

/-- Program points of the calls of `HandleProcessExit` (lines 85 and 121). -/
def atReport : PC → Bool
  | PC.attReport | PC.spReport => true
  | _ => false

/-- Program points of the restart delay (lines 92 and 129). -/
def atDelay : PC → Bool
  | PC.attDelay | PC.spDelay => true
  | _ => false

/-- Calls of the spawn operation, `CreateProcessA`. -/
def isSpawn : Ev → Bool
  | Ev.createProcess _ _ => true
  | _ => false

/-- Calls of the attach operation, `OpenProcess`. -/
def isAttach : Ev → Bool
  | Ev.openProcess _ _ => true
  | _ => false

/-- Calls of `CreateProcessA` that failed. -/
def isFailedSpawn : Ev → Bool
  | Ev.createProcess _ false => true
  | _ => false

/-- Calls of `OpenProcess` that failed. -/
def isFailedAttach : Ev → Bool
  | Ev.openProcess _ false => true
  | _ => false

/-- Calls of `GetExitCodeProcess`. -/
def isExitQuery : Ev → Bool
  | Ev.getExitCodeProcess _ _ => true
  | _ => false

/-- Waits of the restart delay, `WaitForSingleObject`. -/
def isDelay : Ev → Bool
  | Ev.waitForSingleObject _ _ => true
  | _ => false

/-- The number of `CreateProcessA` calls `main` may still make without reading
`isLooping` again: one when it stands between the loop guard and the call. -/
def spawnBudget (p : PC) : Nat :=
  if p = PC.spawn then 1 else 0

/-- The number of `OpenProcess` calls `main` may still make without reading
`isLooping`: the attach of line 70 is reached from line 56 without any test of
the flag. -/
def attachBudget (p : PC) : Nat :=
  if p = PC.parseArg ∨ p = PC.openProc then 1 else 0

/-- The number of `GetExitCodeProcess` calls `main` may still make without
reading `isLooping` again: one when it stands between the test of line 83 or
119 and the call. -/
def queryBudget (p : PC) : Nat :=
  if p = PC.attReport ∨ p = PC.spReport then 1 else 0

/-- The number of restart delays `main` may still enter without reading
`isLooping` again: one when it stands between the test of line 90 or 127 and
the wait. -/
def delayBudget (p : PC) : Nat :=
  if p = PC.attDelay ∨ p = PC.spDelay then 1 else 0

/-- An action that is not the delivery of a `CTRL_C_EVENT` or `CTRL_CLOSE_EVENT`
notification. -/
def notRequest : Act → Bool
  | Act.ctrl dwType => !handles dwType
  | _ => true

/-- The `CloseHandle` calls that end an iteration: lines 124 and 125 for a
spawned target, line 88 for the attached one. -/
def closeEvents (s : State) : List Ev :=
  if s.pc = PC.spWait then [Ev.closeHandle s.hProcess, Ev.closeHandle s.hThread]
  else [Ev.closeHandle s.hProcess]

/-- What `main` does at lines 105 to 113 when `CreateProcessA` answers `r`. -/
def spawnEvents (cmd : List Char) (r : Env) : List Ev :=
  [Ev.print Msg.starting, Ev.createProcess cmd r.ok] ++
    (if r.ok then [Ev.print (Msg.attached r.val)]
     else [Ev.print (Msg.startFailed r.val), Ev.exit EXIT_FAILURE])

/-- What `main` does from a restart delay that a shutdown request ends: the
wait returns for the event, the completion event is signaled and `main` returns
`EXIT_SUCCESS`. -/
def preemptedEvents : List Ev :=
  [Ev.waitForSingleObject RESTART_DELAY WaitResult.object0, Ev.setEvent, Ev.exit EXIT_SUCCESS]

/-- Removes one leading sign, `+` or `-`. -/
def stripSign : List Char → List Char
  | [] => []
  | c :: cs => if c.toNat == 45 || c.toNat == 43 then cs else c :: cs

/-- A string that is, in its entirety, a base-10 integer as `strtol` reads
one: optional white space, an optional sign, then one or more decimal digits
and nothing else. -/
def cleanDecimal (s : List Char) : Bool :=
  let digits := stripSign (s.dropWhile isspace)
  !digits.isEmpty && digits.all isdigit

/-! ## Answers of the operating system and executions used as examples -/

/-- An answer of the operating system: the call succeeds with value `0`. -/
def okEnv : Env := { ok := true, val := 0, elapsed := false }

/-- An answer of the operating system: the timeout has elapsed. -/
def timeoutEnv : Env := { ok := true, val := 0, elapsed := true }

/-- An answer of the operating system: the call fails with error code `2`. -/
def failEnv : Env := { ok := false, val := 2, elapsed := false }

/-- An answer of the operating system: `GetExitCodeProcess` succeeds on a
process that is still running and yields `STILL_ACTIVE` (259). -/
def stillActiveEnv : Env := { ok := true, val := 259, elapsed := false }

/-- An answer of the operating system: the call fails with
`ERROR_INVALID_PARAMETER` (87). -/
def invalidParameterEnv : Env := { ok := false, val := 87, elapsed := false }

/-- `n` consecutive steps of `main`, every call succeeding. -/
def mainSteps (n : Nat) : List Act :=
  List.replicate n (Act.main okEnv)

/-- One console notification of kind `dwType` delivered to a fresh handler
thread, number `i`, which runs up to and including its `SetEvent`. -/
def request (dwType i : Nat) : List Act :=
  [Act.ctrl dwType, Act.handler i okEnv, Act.handler i okEnv, Act.handler i okEnv]

/-- The steps of `main` from the wait for the target to the next spawn, through
the exit report and the restart delay: `e` answers the steps that call nothing
that can fail, `q` the exit-code query, `t` the restart delay and `r` the
spawn.  A spawned target has a thread handle to close as well. -/
def restartSteps (p : PC) (e t q r : Env) : List Act :=
  [Act.main e, Act.main e, Act.main q, Act.main e] ++
    (if p = PC.spWait then [Act.main e] else []) ++
    [Act.main e, Act.main t, Act.main e, Act.main r]

/-- The arguments `ProcessRunner cmd`. -/
def argvSpawn : List (List Char) :=
  ["ProcessRunner".toList, "cmd".toList]

/-- The arguments `ProcessRunner cmd arg`. -/
def argvAttach (arg : String) : List (List Char) :=
  ["ProcessRunner".toList, "cmd".toList, arg.toList]

/-- The arguments `ProcessRunner cmd arg` with `arg` made of 128 zeros followed
by `junk`. -/
def argvLong : List (List Char) :=
  ["ProcessRunner".toList, "cmd".toList,
    List.replicate 128 (Char.ofNat 48) ++ "junk".toList]

/-- The state reached from program start by the actions `acts` (the start
state when they are not all possible). -/
def stateAfter (argv : List (List Char)) (acts : List Act) : State :=
  (run (init argv) acts).getD (init argv)

/-- An execution: the target is spawned, terminates, is reported and closed,
the restart delay times out and the spawn of the second iteration fails. -/
def execRestartFail : List Act :=
  mainSteps 8 ++ [Act.targetExit] ++ mainSteps 6 ++
    [Act.main timeoutEnv, Act.main okEnv, Act.main failEnv]

/-- An execution: the attach to the process id given as argument fails. -/
def execAttachFail : List Act :=
  mainSteps 6 ++ [Act.main failEnv]

/-- An execution: the spawned target terminates, `main` reports it, closes its
handles and enters the restart delay. -/
def execDelay : List Act :=
  mainSteps 8 ++ [Act.targetExit] ++ mainSteps 6

/-- An execution of `ProcessRunner cmd`: Ctrl+C arrives after line 48 and
before line 52; the handler clears the flag, signals the shutdown-request event
and returns at once, its wait failing on the completion event that does not
exist yet.  `main` then goes on through line 54 and spawns its target, which
keeps running. -/
def execEarlyRequestSpawn : List Act :=
  mainSteps 3 ++ request CTRL_C_EVENT 0 ++ [Act.handler 0 okEnv] ++ mainSteps 5

/-- An execution of `ProcessRunner cmd 1234`: Ctrl+C arrives after line 48 and
before line 52 and the handler returns as in `execEarlyRequestSpawn`; `main`
then goes on through line 54 and attaches to process 1234, which keeps running. -/
def execEarlyRequestAttach : List Act :=
  mainSteps 3 ++ request CTRL_C_EVENT 0 ++ [Act.handler 0 okEnv] ++ mainSteps 4

/-- The steps of `main` from its wait for a spawned target to the end of the
next `CreateProcessA`: the exit-code query yields `STILL_ACTIVE` and the restart
delay times out. -/
def iterationSpawned : List Act :=
  mainSteps 2 ++ [Act.main stillActiveEnv] ++ mainSteps 3 ++ [Act.main timeoutEnv] ++
    mainSteps 2

/-- The steps of `main` from its wait for the attached target to the end of the
next `CreateProcessA`: the exit-code query yields `STILL_ACTIVE` and the restart
delay times out. -/
def iterationAttached : List Act :=
  mainSteps 2 ++ [Act.main stillActiveEnv] ++ mainSteps 2 ++ [Act.main timeoutEnv] ++
    mainSteps 2

/-- A handler thread run without any other thread in between: up to `n` steps
from the globals `g`, its timed wait ending at the latest by timeout. -/
def handlerAlone : Nat → Shared → HThread → Shared × HThread
  | 0, g, t => (g, t)
  | n + 1, g, t =>
    match handlerStepShared g t timeoutEnv with
    | none => (g, t)
    | some r => handlerAlone n r.1 r.2

/-! ## Invariants -/

/-- The open process handles are exactly the handle of the live target. -/
def HandleInv (s : State) : Prop :=
  s.openProcs = if holdsTarget s.pc then [s.hProcess] else []

/-- No attach or spawn has failed so far, and no spawn has been attempted
before the attach is over. -/
def NoFailure (s : State) : Prop :=
  s.trace.any isFailedSpawn = false ∧ s.trace.any isFailedAttach = false ∧
    (pastInit s.pc = false ∨ s.pc = PC.parseArg ∨ s.pc = PC.openProc →
      s.trace.any isSpawn = false)

/-- The trace ends with a failed spawn and the return that follows it. -/
def SpawnFailed (s : State) : Prop :=
  s.pc = PC.done EXIT_FAILURE ∧ s.trace.any isFailedAttach = false ∧
    ∃ pre cmd err, s.trace = pre ++ [Ev.createProcess cmd false,
      Ev.print (Msg.startFailed err), Ev.exit EXIT_FAILURE] ∧ pre.any isFailedSpawn = false

/-- The trace ends with a failed attach and the return that follows it. -/
def AttachFailed (s : State) : Prop :=
  s.pc = PC.done EXIT_FAILURE ∧ s.trace.any isFailedSpawn = false ∧
    ∃ pre pid err, s.trace = pre ++ [Ev.openProcess pid false,
      Ev.print (Msg.attachFailed pid err), Ev.exit EXIT_FAILURE] ∧
      pre.any isFailedAttach = false ∧ pre.any isSpawn = false

/-- Either no launch has failed, or the trace ends with the failed launch and
the return that follows it. -/
def FailureInv (s : State) : Prop :=
  NoFailure s ∨ SpawnFailed s ∨ AttachFailed s

/-- Both events exist once `main` has created them, and the handler stays
registered. -/
def EventsInv (s : State) : Prop :=
  (pastCreateStart s.pc = true → s.startEvt.isSome = true) ∧
    (pastCreateEnd s.pc = true → s.endEvt.isSome = true) ∧
    (pastRegister s.pc = true → s.registered = true)

/-- After a shutdown request made once `main` has initialised the flag: the
flag is down for good, and what `main` has done since the state `base` stays
within the calls it was committed to in `base`. -/
def ShutdownInv (base s : State) : Prop :=
  s.isLooping = false ∧ pastInit s.pc = true ∧
    ∃ extra, s.trace = base.trace ++ extra ∧
      extra.countP isSpawn + spawnBudget s.pc ≤ spawnBudget base.pc ∧
      extra.countP isAttach + attachBudget s.pc ≤ attachBudget base.pc ∧
      extra.countP isExitQuery + queryBudget s.pc ≤ queryBudget base.pc ∧
      extra.countP isDelay + delayBudget s.pc ≤ delayBudget base.pc

/-- The states `main` goes through from the delay `base`, in which shutdown has
been requested, to its return. -/
def PreemptInv (base s : State) : Prop :=
  s.isLooping = false ∧
    ((s.pc = base.pc ∧ s.startEvt = some true ∧ s.trace = base.trace) ∨
     (s.pc = PC.loopGuard ∧ s.trace = base.trace ++ preemptedEvents.take 1) ∨
     (s.pc = PC.signalEnd ∧ s.trace = base.trace ++ preemptedEvents.take 1) ∨
     (s.pc = PC.done EXIT_SUCCESS ∧ s.trace = base.trace ++ preemptedEvents))

/-- No shutdown request is pending from before line 54: while the flag is true
the shutdown-request event is unsignaled and no handler stands between its
write of the flag and its `SetEvent`. -/
def NoEarlyRequest (s : State) : Prop :=
  s.isLooping = true → s.startEvt = some false ∧ ∀ t ∈ s.handlers, t.pc ≠ HPC.signal

/-- The last operation of `main` was a wait for the target that returned
because the target, which has terminated, satisfied it. -/
def LastWaitWasTarget (s : State) : Prop :=
  s.targetExited = true ∧
    s.trace.getLast? = some (Ev.waitForMultipleObjects WaitResult.object1)

/-- When no request is pending from before line 54, reading the flag tells what
woke the wait. -/
def SoundInv (s : State) : Prop :=
  pastInit s.pc = true ∧ s.startEvt.isSome = true ∧ NoEarlyRequest s ∧
    (atFlagTest s.pc = true → s.isLooping = true → LastWaitWasTarget s) ∧
    (atReport s.pc = true → LastWaitWasTarget s)

/-- No shutdown has been requested: every handler thread was started for a
notification that the handler ignores, the flag is true once `main` has set it
and until `main` returns, and the shutdown-request event is unsignaled once
`main` has created it. -/
def QuietInv (s : State) : Prop :=
  (∀ t ∈ s.handlers, handles t.dwType = false ∧ (t.pc = HPC.entry ∨ t.pc = HPC.returned false)) ∧
    (pastInit s.pc = true → pastCreateStart s.pc = true → s.isLooping = true) ∧
    (pastCreateStart s.pc = true → s.startEvt = some false)

/-! ## General facts about executions -/

theorem run_append (s : State) (xs ys : List Act) :
    run s (xs ++ ys) = (run s xs).bind fun s1 => run s1 ys := by
  induction xs generalizing s with
  | nil => simp [run]
  | cons a as ih =>
    simp only [List.cons_append, run]
    cases step s a with
    | none => simp
    | some s1 => simpa using ih s1

/-- A property that holds in a state and that every action preserves holds at
the end of every execution from that state. -/
theorem run_invariant (P : State → Prop)
    (hstep : ∀ s a s1, P s → step s a = some s1 → P s1) :
    ∀ (acts : List Act) (s s1 : State), P s → run s acts = some s1 → P s1 := by
  intro acts
  induction acts with
  | nil =>
    intro s s1 hs h
    simp only [run, Option.some.injEq] at h
    exact h ▸ hs
  | cons a as ih =>
    intro s s1 hs h
    simp only [run] at h
    cases hsa : step s a with
    | none => simp [hsa] at h
    | some s2 =>
      simp only [hsa, Option.some_bind] at h
      exact ih s2 s1 (hstep s a s2 hs hsa) h

/-- A step of a handler thread touches the three globals and the thread only;
it never sets `isLooping`, never resets the shutdown-request event and neither
creates nor destroys an event. -/
theorem handlerStep_frame (s s1 : State) (i : Nat) (e : Env)
    (h : handlerStep s i e = some s1) :
    s1.pc = s.pc ∧ s1.trace = s.trace ∧ s1.openProcs = s.openProcs ∧
      s1.hProcess = s.hProcess ∧ s1.argv = s.argv ∧ s1.registered = s.registered ∧
      s1.targetExited = s.targetExited ∧
      (s1.isLooping = s.isLooping ∨ s1.isLooping = false) ∧
      (s.startEvt = some true → s1.startEvt = some true) ∧
      s1.startEvt.isSome = s.startEvt.isSome ∧ s1.endEvt.isSome = s.endEvt.isSome := by
  unfold handlerStep at h
  split at h
  · simp at h
  · rename_i t ht
    simp only [Option.map_eq_some'] at h
    obtain ⟨r, hr, rfl⟩ := h
    refine ⟨rfl, rfl, rfl, rfl, rfl, rfl, rfl, ?_⟩
    unfold handlerStepShared at hr
    split at hr
    · simp only [Option.some.injEq] at hr; subst hr; simp
    · simp only [Option.some.injEq] at hr; subst hr; simp
    · simp only [Option.some.injEq] at hr; subst hr
      cases hse : s.startEvt <;> simp [setEvent, hse]
    · simp only [Option.map_eq_some'] at hr
      obtain ⟨w, hw, rfl⟩ := hr
      refine ⟨Or.inl rfl, fun h => h, rfl, ?_⟩
      unfold waitTimed at hw
      split at hw
      · rename_i hee; simp only [Option.some.injEq] at hw; subst hw; simp [hee]
      · rename_i hee; simp only [Option.some.injEq] at hw; subst hw; simp [hee]
      · rename_i hee
        split at hw
        · simp only [Option.some.injEq] at hw; subst hw; simp [hee]
        · simp at hw
    · simp at hr

/-- Actions other than a step of `main` leave the main thread where it is. -/
theorem step_other_frame (s s1 : State) (a : Act) (h : step s a = some s1)
    (ha : ∀ e, a ≠ Act.main e) :
    s1.pc = s.pc ∧ s1.trace = s.trace ∧ s1.openProcs = s.openProcs ∧
      s1.hProcess = s.hProcess ∧ s1.argv = s.argv ∧
      (s1.isLooping = s.isLooping ∨ s1.isLooping = false) ∧
      (s.startEvt = some true → s1.startEvt = some true) ∧
      s1.startEvt.isSome = s.startEvt.isSome ∧ s1.endEvt.isSome = s.endEvt.isSome ∧
      s1.registered = s.registered := by
  cases a with
  | main e => exact absurd rfl (ha e)
  | ctrl k =>
    simp only [step] at h
    split at h
    · simp only [Option.some.injEq] at h; subst h; simp
    · simp at h
  | handler i e =>
    obtain ⟨h1, h2, h3, h4, h5, h6, -, h8, h9, h10, h11⟩ := handlerStep_frame s s1 i e h
    exact ⟨h1, h2, h3, h4, h5, h8, h9, h10, h11, h6⟩
  | targetExit =>
    simp only [step] at h
    split at h
    · simp at h
    · simp only [Option.some.injEq] at h; subst h; simp

/-! ## Process handles -/

theorem HandleInv_init (argv : List (List Char)) : HandleInv (init argv) := by
  simp [HandleInv, init, holdsTarget]

theorem HandleInv_step (s : State) (a : Act) (s1 : State) (hi : HandleInv s)
    (h : step s a = some s1) : HandleInv s1 := by
  cases a with
  | main e =>
    simp only [step] at h
    unfold HandleInv at hi ⊢
    obtain ⟨⟨fl, se, ee⟩, argv, pc, reg, pid, hp, ht, nh, ops, ots, te, hs, tr⟩ := s
    cases pc <;> simp only [mainStep, State.emit, State.goto, Option.map_eq_some'] at h <;>
      (try split_ifs at h) <;>
      (try (obtain ⟨r, -, h⟩ := h)) <;>
      (try subst h) <;>
      simp_all [holdsTarget]
  | ctrl k =>
    obtain ⟨h1, -, h3, h4, -⟩ := step_other_frame s s1 _ h (by simp)
    unfold HandleInv at hi ⊢
    rw [h1, h3, h4]; exact hi
  | handler i e =>
    obtain ⟨h1, -, h3, h4, -⟩ := step_other_frame s s1 _ h (by simp)
    unfold HandleInv at hi ⊢
    rw [h1, h3, h4]; exact hi
  | targetExit =>
    obtain ⟨h1, -, h3, h4, -⟩ := step_other_frame s s1 _ h (by simp)
    unfold HandleInv at hi ⊢
    rw [h1, h3, h4]; exact hi

theorem HandleInv_run (argv : List (List Char)) (acts : List Act) (s : State)
    (h : run (init argv) acts = some s) : HandleInv s :=
  run_invariant HandleInv (fun s a s1 hi hs => HandleInv_step s a s1 hi hs) acts _ s
    (HandleInv_init argv) h

/-- C7: in every state of every execution at most one process handle is open;
one is open exactly from a successful attach or spawn to the `CloseHandle` of
that handle, and it is the handle of the current target; none is open when
`main` is about to call `CreateProcessA` and none when `main` has returned,
whatever the exit status (normal shutdown, failed attach, failed spawn). -/
theorem C7_one_target_handle (argv : List (List Char)) (acts : List Act) (s : State)
    (h : run (init argv) acts = some s) :
    s.openProcs.length ≤ 1 ∧
    (s.openProcs.length = 1 ↔ holdsTarget s.pc = true) ∧
    (holdsTarget s.pc = true → s.openProcs = [s.hProcess]) ∧
    (holdsTarget s.pc = false → s.openProcs = []) ∧
    (s.pc = PC.spawn → s.openProcs = []) ∧
    (∀ code, s.pc = PC.done code → s.openProcs = []) := by
  have hi := HandleInv_run argv acts s h
  unfold HandleInv at hi
  refine ⟨?_, ?_, ?_, ?_, ?_, ?_⟩
  · rw [hi]; split <;> simp
  · rw [hi]; split <;> simp_all
  · intro hp; rw [hi, if_pos hp]
  · intro hp; rw [hi, hp]; simp
  · intro hp; rw [hi, hp]; simp [holdsTarget]
  · intro code hp; rw [hi, hp]; simp [holdsTarget]

/-- An execution for C7: the target is spawned, terminates, is reported and
closed, and the spawn of the next iteration fails. -/
theorem C7_one_target_handle_witness :
    ∃ s, run (init argvSpawn) execRestartFail = some s ∧
      s.pc = PC.done EXIT_FAILURE ∧ s.openProcs = [] ∧ s.openProcs.length ≤ 1 := by
  have hp : (run (init argvSpawn) execRestartFail).map State.pc =
      some (PC.done EXIT_FAILURE) := by decide
  obtain ⟨s, hs, hv⟩ := Option.map_eq_some'.mp hp
  have h7 := C7_one_target_handle _ _ s hs
  exact ⟨s, hs, hv, h7.2.2.2.2.2 EXIT_FAILURE hv, h7.1⟩

/-! ## Fatal launch errors -/

theorem FailureInv_init (argv : List (List Char)) : FailureInv (init argv) := by
  left
  simp [NoFailure, init]

theorem mainStep_done (s : State) (e : Env) (code : Nat) (h : s.pc = PC.done code) :
    mainStep s e = none := by
  unfold mainStep
  rw [h]

theorem FailureInv_step (s : State) (a : Act) (s1 : State) (hi : FailureInv s)
    (h : step s a = some s1) : FailureInv s1 := by
  by_cases ha : ∃ e, a = Act.main e
  · obtain ⟨e, rfl⟩ := ha
    simp only [step] at h
    rcases hi with hi | hi | hi
    · unfold NoFailure at hi
      obtain ⟨⟨fl, se, ee⟩, argv, pc, reg, pid, hp, ht, nh, ops, ots, te, hs, tr⟩ := s
      cases pc <;> simp only [mainStep, State.emit, State.goto, Option.map_eq_some'] at h <;>
        (try split_ifs at h) <;>
        (try (obtain ⟨r, -, h⟩ := h)) <;>
        (try subst h) <;>
        first
        | (left
           simp_all [NoFailure, isFailedSpawn, isFailedAttach, isSpawn, pastInit,
             HandleProcessExit]
           done)
        | (right; left
           refine ⟨rfl, ?_, tr ++ [Ev.print Msg.starting], argv.getD 1 [], e.val, ?_, ?_⟩ <;>
             simp_all [isFailedSpawn, isFailedAttach, isSpawn, State.cmd]
           done)
        | (right; right
           refine ⟨rfl, ?_, tr, pid, e.val, ?_, ?_, ?_⟩ <;>
             simp_all [isFailedSpawn, isFailedAttach, isSpawn, pastInit])
    · rw [mainStep_done s e _ hi.1] at h; simp at h
    · rw [mainStep_done s e _ hi.1] at h; simp at h
  · obtain ⟨h1, h2, -⟩ := step_other_frame s s1 a h (fun e he => ha ⟨e, he⟩)
    unfold FailureInv NoFailure SpawnFailed AttachFailed at hi ⊢
    rw [h1, h2]; exact hi

theorem FailureInv_run (argv : List (List Char)) (acts : List Act) (s : State)
    (h : run (init argv) acts = some s) : FailureInv s :=
  run_invariant FailureInv (fun s a s1 hi hs => FailureInv_step s a s1 hi hs) acts _ s
    (FailureInv_init argv) h

/-- A list has at most one decomposition around an element satisfying `p` when
no other element satisfies `p`. -/
theorem split_unique (p : Ev → Bool) (pre0 post0 : List Ev) (a b : Ev)
    (pb : p b = true) (h0 : pre0.any p = false) (h1 : post0.any p = false) :
    ∀ pre post : List Ev, pre0 ++ a :: post0 = pre ++ b :: post → post = post0 := by
  induction pre0 with
  | nil =>
    intro pre post h
    cases pre with
    | nil => simp at h; exact h.2.symm
    | cons c pre1 =>
      simp only [List.nil_append, List.cons_append, List.cons.injEq] at h
      have : post0.any p = true := by
        rw [h.2]; simp [pb]
      rw [h1] at this; cases this
  | cons c pre1 ih =>
    intro pre post h
    simp only [List.any_cons, Bool.or_eq_false_iff] at h0
    cases pre with
    | nil =>
      simp only [List.nil_append, List.cons_append, List.cons.injEq] at h
      rw [h.1, pb] at h0
      cases h0.1
    | cons d pre2 =>
      simp only [List.cons_append, List.cons.injEq] at h
      exact ih h0.2 pre2 post h.2

/-- C8: a failed `CreateProcessA` is followed in the trace of `main` by the
error message and the return of `EXIT_FAILURE` and by nothing else (no wait, no
exit-code query, no restart delay, no further spawn), in whichever iteration it
happens; a failed `OpenProcess` is followed by the error message and the return
of `EXIT_FAILURE`, and the whole trace has no `CreateProcessA`.  In both cases
`main` has returned: it takes no further step.  The last two parts say that a
failing call does lead to that return. -/
theorem C8_fatal_launch_errors (argv : List (List Char)) (acts : List Act) (s : State)
    (h : run (init argv) acts = some s) :
    (∀ pre post cmd, s.trace = pre ++ Ev.createProcess cmd false :: post →
      s.pc = PC.done EXIT_FAILURE ∧
      (∃ err, post = [Ev.print (Msg.startFailed err), Ev.exit EXIT_FAILURE]) ∧
      ∀ e, mainStep s e = none) ∧
    (∀ pre post pid, s.trace = pre ++ Ev.openProcess pid false :: post →
      s.pc = PC.done EXIT_FAILURE ∧
      (∃ err, post = [Ev.print (Msg.attachFailed pid err), Ev.exit EXIT_FAILURE]) ∧
      s.trace.any isSpawn = false ∧
      ∀ e, mainStep s e = none) ∧
    (s.pc = PC.spawn → ∀ e : Env, e.ok = false →
      ∃ s1, mainStep s e = some s1 ∧ s1.pc = PC.done EXIT_FAILURE ∧
        s1.trace = s.trace ++ [Ev.print Msg.starting, Ev.createProcess s.cmd false,
          Ev.print (Msg.startFailed e.val), Ev.exit EXIT_FAILURE]) ∧
    (s.pc = PC.openProc → ∀ e : Env, e.ok = false →
      ∃ s1, mainStep s e = some s1 ∧ s1.pc = PC.done EXIT_FAILURE ∧
        s1.trace = s.trace ++ [Ev.openProcess s.pid false,
          Ev.print (Msg.attachFailed s.pid e.val), Ev.exit EXIT_FAILURE]) := by
  have hi := FailureInv_run argv acts s h
  refine ⟨?_, ?_, ?_, ?_⟩
  · intro pre post cmd ht
    have hmem : s.trace.any isFailedSpawn = true := by
      rw [ht]; simp [isFailedSpawn]
    rcases hi with hi | hi | hi
    · rw [hi.1] at hmem; cases hmem
    · obtain ⟨hpc, -, pre0, cmd0, err, htr, hpre⟩ := hi
      refine ⟨hpc, ⟨err, ?_⟩, fun e => mainStep_done s e _ hpc⟩
      have hs := split_unique isFailedSpawn pre0
        [Ev.print (Msg.startFailed err), Ev.exit EXIT_FAILURE]
        (Ev.createProcess cmd0 false) (Ev.createProcess cmd false) rfl hpre rfl pre post
      apply hs
      rw [← ht, htr]
    · rw [hi.2.1] at hmem; cases hmem
  · intro pre post pid ht
    have hmem : s.trace.any isFailedAttach = true := by
      rw [ht]; simp [isFailedAttach]
    rcases hi with hi | hi | hi
    · rw [hi.2.1] at hmem; cases hmem
    · rw [hi.2.1] at hmem; cases hmem
    · obtain ⟨hpc, -, pre0, pid0, err, htr, hpre, hsp⟩ := hi
      have hs := split_unique isFailedAttach pre0
        [Ev.print (Msg.attachFailed pid0 err), Ev.exit EXIT_FAILURE]
        (Ev.openProcess pid0 false) (Ev.openProcess pid false) rfl hpre rfl pre post
      have hpost := hs (by rw [← ht, htr])
      have hpid : pid = pid0 := by
        have hc : (s.trace.filter isFailedAttach) = [Ev.openProcess pid0 false] := by
          rw [htr, List.filter_append]
          have : pre0.filter isFailedAttach = [] := by
            rw [List.filter_eq_nil_iff]
            intro x hx hp
            have : pre0.any isFailedAttach = true := List.any_eq_true.mpr ⟨x, hx, hp⟩
            rw [hpre] at this; cases this
          rw [this]; simp [List.filter, isFailedAttach]
        have hm : Ev.openProcess pid false ∈ s.trace.filter isFailedAttach := by
          rw [List.mem_filter, ht]; simp [isFailedAttach]
        rw [hc] at hm
        simpa using hm
      subst hpid
      refine ⟨hpc, ⟨err, hpost⟩, ?_, fun e => mainStep_done s e _ hpc⟩
      rw [htr]; simp [hsp, isSpawn]
  · intro hpc e he
    obtain ⟨⟨fl, se, ee⟩, argv, pc, reg, pid, hp, ht, nh, ops, ots, te, hs, tr⟩ := s
    simp only at hpc
    subst hpc
    simp [mainStep, he, State.emit, State.goto]
  · intro hpc e he
    obtain ⟨⟨fl, se, ee⟩, argv, pc, reg, pid, hp, ht, nh, ops, ots, te, hs, tr⟩ := s
    simp only at hpc
    subst hpc
    simp [mainStep, he, State.emit, State.goto]

/-- An execution for C8: the process id 99999 cannot be opened. -/
theorem C8_fatal_launch_errors_witness :
    ∃ s, run (init (argvAttach "99999")) execAttachFail = some s ∧
      s.pc = PC.done EXIT_FAILURE ∧ s.trace.any isSpawn = false ∧
      s.trace = [Ev.print Msg.banner, Ev.setConsoleCtrlHandler true, Ev.createEvent,
        Ev.createEvent, Ev.openProcess 99999 false, Ev.print (Msg.attachFailed 99999 2),
        Ev.exit EXIT_FAILURE] := by
  have ht : (run (init (argvAttach "99999")) execAttachFail).map State.trace =
      some [Ev.print Msg.banner, Ev.setConsoleCtrlHandler true, Ev.createEvent,
        Ev.createEvent, Ev.openProcess 99999 false, Ev.print (Msg.attachFailed 99999 2),
        Ev.exit EXIT_FAILURE] := by decide
  obtain ⟨s, hs, hv⟩ := Option.map_eq_some'.mp ht
  have h8 := (C8_fatal_launch_errors _ _ s hs).2.1
    [Ev.print Msg.banner, Ev.setConsoleCtrlHandler true, Ev.createEvent, Ev.createEvent]
    [Ev.print (Msg.attachFailed 99999 2), Ev.exit EXIT_FAILURE] 99999 (by rw [hv]; rfl)
  exact ⟨s, hs, h8.1, h8.2.2.1, hv⟩

/-! ## Restart after the target terminated -/

/-- C2: when `main` stands at the wait of line 81 or 117, the target has
terminated and no shutdown has been requested (`isLooping` is true, the
shutdown-request event is unsignaled, and no handler runs during the
iteration), `main` performs exactly this sequence: the wait returns for the process handle, the exit code is
queried and a line is printed, the process handle is closed (and the thread
handle of a spawned target), the shutdown-request event is waited for with a
timeout of `RESTART_DELAY` = 5000 ms, and when that wait times out
`CreateProcessA` is called with the command line `argv[1]`.  The answer `q` of
the exit-code query only changes the result recorded for the query and the
printed line. -/
theorem C2_restart_after_exit (s : State) (e t q r : Env)
    (hpc : atDualWait s.pc = true) (hflag : s.isLooping = true)
    (hev : s.startEvt = some false) (hx : s.targetExited = true)
    (ht : t.elapsed = true) :
    ∃ s1, run s (restartSteps s.pc e t q r) = some s1 ∧
      s1.trace = s.trace ++
        [Ev.waitForMultipleObjects WaitResult.object1,
          Ev.getExitCodeProcess s.hProcess q.ok,
          Ev.print (if q.ok then Msg.terminated q.val else Msg.terminatedUnknown q.val)] ++
        closeEvents s ++
        [Ev.waitForSingleObject 5000 WaitResult.timeout] ++
        spawnEvents (s.argv.getD 1 []) r := by
  obtain ⟨⟨fl, se, ee⟩, argv, pc, reg, pid, hp, hth, nh, ops, ots, te, hs, tr⟩ := s
  obtain ⟨tok, tval, tel⟩ := t
  obtain ⟨rok, rval, rel⟩ := r
  simp only at hflag hev hx ht
  subst hflag hev hx ht
  cases pc <;> simp only [atDualWait] at hpc <;> try cases hpc
  · cases rok <;> exact ⟨_, rfl, by simp [closeEvents, spawnEvents, HandleProcessExit,
      State.emit, State.goto, State.cmd, RESTART_DELAY]⟩
  · cases rok <;> exact ⟨_, rfl, by simp [closeEvents, spawnEvents, HandleProcessExit,
      State.emit, State.goto, State.cmd, RESTART_DELAY]⟩

/-- An execution for C2: after `ProcessRunner cmd` has spawned its target and
the target has terminated, the exit-code query fails and the next spawn
succeeds. -/
theorem C2_restart_after_exit_witness :
    ∃ s1, run (stateAfter argvSpawn (mainSteps 8 ++ [Act.targetExit]))
        (restartSteps PC.spWait okEnv timeoutEnv failEnv okEnv) = some s1 ∧
      s1.trace = (stateAfter argvSpawn (mainSteps 8 ++ [Act.targetExit])).trace ++
        [Ev.waitForMultipleObjects WaitResult.object1,
          Ev.getExitCodeProcess 1 false,
          Ev.print (Msg.terminatedUnknown 2),
          Ev.closeHandle 1, Ev.closeHandle 2,
          Ev.waitForSingleObject 5000 WaitResult.timeout,
          Ev.print Msg.starting, Ev.createProcess "cmd".toList true,
          Ev.print (Msg.attached 0)] :=
  C2_restart_after_exit (stateAfter argvSpawn (mainSteps 8 ++ [Act.targetExit]))
    okEnv timeoutEnv failEnv okEnv (by decide) (by decide) (by decide) (by decide) (by decide)

/-! ## The continuation flag -/

/-- Once `main` is past line 54, a flag that is down stays down, and `main`
spends its budget of committed calls. -/
theorem ShutdownInv_step (base s : State) (a : Act) (s1 : State)
    (hi : ShutdownInv base s) (h : step s a = some s1) : ShutdownInv base s1 := by
  by_cases ha : ∃ e, a = Act.main e
  · obtain ⟨e, rfl⟩ := ha
    simp only [step] at h
    unfold ShutdownInv
    obtain ⟨hfl, hpast, extra, htr, hsp, hat, hqu, hde⟩ := hi
    obtain ⟨⟨fl, se, ee⟩, argv, pc, reg, pid, hp, ht, nh, ops, ots, te, hs, tr⟩ := s
    simp only at hfl htr hpast hsp hat hqu hde
    subst hfl htr
    generalize spawnBudget base.pc = b1 at hsp ⊢
    generalize attachBudget base.pc = b2 at hat ⊢
    generalize queryBudget base.pc = b3 at hqu ⊢
    generalize delayBudget base.pc = b4 at hde ⊢
    cases pc <;> (try simp [pastInit] at hpast) <;>
      simp only [mainStep, State.emit, State.goto, Option.map_eq_some'] at h <;>
      (try split_ifs at h) <;>
      (try (obtain ⟨r, -, h⟩ := h)) <;>
      (try subst h) <;>
      (first
        | refine ⟨rfl, by simp [pastInit], extra ++ _, List.append_assoc _ _ _, ?_, ?_, ?_, ?_⟩
        | refine ⟨rfl, by simp [pastInit], extra, rfl, ?_, ?_, ?_, ?_⟩) <;>
      simp [List.countP_append, List.countP_cons, isSpawn, isAttach, isExitQuery, isDelay,
        spawnBudget, attachBudget, queryBudget, delayBudget, HandleProcessExit]
        at hsp hat hqu hde ⊢ <;>
      first | omega | contradiction
  · obtain ⟨h1, h2, -, -, -, h6, -⟩ := step_other_frame s s1 a h (fun e he => ha ⟨e, he⟩)
    obtain ⟨hfl, hpast, hex⟩ := hi
    refine ⟨?_, ?_, ?_⟩
    · rcases h6 with h6 | h6
      · rw [h6]; exact hfl
      · exact h6
    · rw [h1]; exact hpast
    · rw [h1, h2]; exact hex

theorem ShutdownInv_refl (s : State) (hfl : s.isLooping = false) (hp : pastInit s.pc = true) :
    ShutdownInv s s :=
  ⟨hfl, hp, [], by simp, by simp, by simp, by simp, by simp⟩

theorem ShutdownInv_run (s : State) (acts : List Act) (s1 : State)
    (hfl : s.isLooping = false) (hp : pastInit s.pc = true) (h : run s acts = some s1) :
    ShutdownInv s s1 :=
  run_invariant (ShutdownInv s) (fun t a t1 hi ht => ShutdownInv_step s t a t1 hi ht) acts s s1
    (ShutdownInv_refl s hfl hp) h

theorem pastInit_step (s : State) (a : Act) (s1 : State) (hp : pastInit s.pc = true)
    (h : step s a = some s1) : pastInit s1.pc = true := by
  by_cases ha : ∃ e, a = Act.main e
  · obtain ⟨e, rfl⟩ := ha
    simp only [step] at h
    obtain ⟨⟨fl, se, ee⟩, argv, pc, reg, pid, hp1, ht, nh, ops, ots, te, hs, tr⟩ := s
    simp only at hp
    cases pc <;> (try simp [pastInit] at hp) <;>
      simp only [mainStep, State.emit, State.goto, Option.map_eq_some'] at h <;>
      (try split_ifs at h) <;>
      (try (obtain ⟨r, -, h⟩ := h)) <;>
      (try subst h) <;>
      simp [pastInit]
  · obtain ⟨h1, -⟩ := step_other_frame s s1 a h (fun e he => ha ⟨e, he⟩)
    rw [h1]; exact hp

theorem pastInit_run (s : State) (acts : List Act) (s1 : State) (hp : pastInit s.pc = true)
    (h : run s acts = some s1) : pastInit s1.pc = true :=
  run_invariant (fun t => pastInit t.pc = true) (fun t a t1 hi ht => pastInit_step t a t1 hi ht)
    acts s s1 hp h

/-- The only steps that change `isLooping`: line 54 of `main`, which sets it,
and line 145 of a handler thread, which clears it. -/
theorem flag_writers (s : State) (a : Act) (s1 : State) (h : step s a = some s1)
    (hne : s1.isLooping ≠ s.isLooping) :
    (∃ e, a = Act.main e ∧ s.pc = PC.initFlag ∧ s1.isLooping = true) ∨
    (∃ i e t, a = Act.handler i e ∧ s.handlers.get? i = some t ∧ t.pc = HPC.setFlag ∧
      s1.isLooping = false) := by
  cases a with
  | main e =>
    left
    simp only [step] at h
    obtain ⟨⟨fl, se, ee⟩, argv, pc, reg, pid, hp1, ht, nh, ops, ots, te, hs, tr⟩ := s
    cases pc <;>
      simp only [mainStep, State.emit, State.goto, Option.map_eq_some'] at h <;>
      (try split_ifs at h) <;>
      (try (obtain ⟨r, -, h⟩ := h)) <;>
      (try subst h) <;>
      simp_all
  | ctrl k =>
    simp only [step] at h
    split at h
    · simp only [Option.some.injEq] at h; subst h; simp at hne
    · simp at h
  | handler i e =>
    right
    simp only [step] at h
    unfold handlerStep at h
    split at h
    · simp at h
    · rename_i t ht
      simp only [Option.map_eq_some'] at h
      obtain ⟨r, hr, rfl⟩ := h
      refine ⟨i, e, t, rfl, ht, ?_⟩
      unfold handlerStepShared at hr
      split at hr
      · simp only [Option.some.injEq] at hr; subst hr; simp at hne
      · rename_i hpc; simp only [Option.some.injEq] at hr; subst hr; exact ⟨hpc, rfl⟩
      · simp only [Option.some.injEq] at hr; subst hr; simp at hne
      · simp only [Option.map_eq_some'] at hr
        obtain ⟨w, -, rfl⟩ := hr
        simp at hne
      · simp at hr
  | targetExit =>
    simp only [step] at h
    split at h
    · simp at h
    · simp only [Option.some.injEq] at h; subst h; simp at hne

/-! ## No launch after a shutdown request -/

/-- C3, the requests the flag does not stop.  First execution, `ProcessRunner
cmd 1234`: the handler has set `isLooping` to false and signaled the
shutdown-request event after line 54 and before line 70 is reached, and `main`
then calls `OpenProcess`, which no test of the flag guards.  Second execution,
`ProcessRunner cmd`: `main` has evaluated the loop guard of line 96, the handler
then requests shutdown, and `main` calls `CreateProcessA`.  Third execution: the
handler requests shutdown between lines 48 and 54, line 54 sets the flag again
and `main` calls `CreateProcessA`. -/
theorem C3_counterexample :
    ((run (init (argvAttach "1234")) (mainSteps 5 ++ request CTRL_C_EVENT 0)).map
        fun s => (s.pc, s.isLooping, s.startEvt, s.trace.any isAttach))
      = some (PC.parseArg, false, some true, false) ∧
    ((run (init (argvAttach "1234")) (mainSteps 5 ++ request CTRL_C_EVENT 0 ++ mainSteps 2)).map
        fun s => (s.isLooping, s.trace.drop 4))
      = some (false, [Ev.openProcess 1234 true, Ev.print (Msg.attached 1234)]) ∧
    ((run (init argvSpawn) (mainSteps 7 ++ request CTRL_C_EVENT 0)).map
        fun s => (s.pc, s.isLooping, s.startEvt, s.trace.any isSpawn))
      = some (PC.spawn, false, some true, false) ∧
    ((run (init argvSpawn) (mainSteps 7 ++ request CTRL_C_EVENT 0 ++ mainSteps 1)).map
        fun s => (s.isLooping, s.trace.drop 4))
      = some (false, [Ev.print Msg.starting, Ev.createProcess "cmd".toList true,
          Ev.print (Msg.attached 0)]) ∧
    ((run (init argvSpawn) (mainSteps 3 ++ request CTRL_C_EVENT 0)).map
        fun s => (s.pc, s.isLooping, s.startEvt, s.trace.any isSpawn))
      = some (PC.createEnd, false, some true, false) ∧
    ((run (init argvSpawn) (mainSteps 3 ++ request CTRL_C_EVENT 0 ++ mainSteps 5)).map
        fun s => (s.isLooping, s.trace.drop 4))
      = some (true, [Ev.print Msg.starting, Ev.createProcess "cmd".toList true,
          Ev.print (Msg.attached 0)]) := by
  refine ⟨?_, ?_, ?_, ?_, ?_, ?_⟩ <;> decide

/-- C3 as amended: from any state in which `main` is past line 54 and the flag
is false (a shutdown request made after the flag was initialised), in every
continuation the flag stays false, `main` calls `CreateProcessA` at most once
more, and only if it stood between the loop guard of line 96 and the call when
the request was made, and it calls `OpenProcess` at most once more, and only if
it had not yet reached or passed line 70. -/
theorem C3_no_launch_after_shutdown (s : State) (acts : List Act) (s1 : State)
    (hfl : s.isLooping = false) (hp : pastInit s.pc = true) (h : run s acts = some s1) :
    s1.isLooping = false ∧
    ∃ extra, s1.trace = s.trace ++ extra ∧
      extra.countP isSpawn ≤ (if s.pc = PC.spawn then 1 else 0) ∧
      extra.countP isAttach ≤ (if s.pc = PC.parseArg ∨ s.pc = PC.openProc then 1 else 0) := by
  obtain ⟨h1, -, extra, h3, h4, h5, -⟩ := ShutdownInv_run s acts s1 hfl hp h
  refine ⟨h1, extra, h3, ?_, ?_⟩
  · unfold spawnBudget at h4; omega
  · unfold attachBudget at h5; omega

/-- An execution for C3: Ctrl+C arrives while the spawned target runs; `main`
closes its handles and returns without any further spawn or attach. -/
theorem C3_no_launch_after_shutdown_witness :
    ∃ s1, run (stateAfter argvSpawn (mainSteps 8 ++ request CTRL_C_EVENT 0)) (mainSteps 7)
        = some s1 ∧
      s1.pc = PC.done EXIT_SUCCESS ∧ s1.isLooping = false ∧
      ∃ extra, s1.trace =
          (stateAfter argvSpawn (mainSteps 8 ++ request CTRL_C_EVENT 0)).trace ++ extra ∧
        extra.countP isSpawn ≤ 0 ∧ extra.countP isAttach ≤ 0 := by
  have hp : (run (stateAfter argvSpawn (mainSteps 8 ++ request CTRL_C_EVENT 0))
      (mainSteps 7)).map State.pc = some (PC.done EXIT_SUCCESS) := by decide
  obtain ⟨s1, hs, hv⟩ := Option.map_eq_some'.mp hp
  have h3 := C3_no_launch_after_shutdown _ _ s1 (by decide) (by decide) hs
  exact ⟨s1, hs, hv, h3.1, h3.2⟩

/-! ## Writers of the flag -/

/-- C4, the write of line 54.  Without any handler activity the flag is false
when `main` reaches line 54 (a zero-initialised global) and true after it; and
when a handler has run between lines 48 and 54, line 54 sets the flag that the
handler had cleared. -/
theorem C4_counterexample :
    ((run (init argvSpawn) (mainSteps 4)).map fun s => (s.pc, s.isLooping))
      = some (PC.initFlag, false) ∧
    ((run (init argvSpawn) (mainSteps 5)).map fun s => (s.pc, s.isLooping))
      = some (PC.parseArg, true) ∧
    ((run (init argvSpawn) (mainSteps 3 ++ request CTRL_C_EVENT 0 ++ mainSteps 1)).map
        fun s => (s.pc, s.isLooping, s.startEvt))
      = some (PC.initFlag, false, some true) ∧
    ((run (init argvSpawn) (mainSteps 3 ++ request CTRL_C_EVENT 0 ++ mainSteps 2)).map
        fun s => (s.pc, s.isLooping, s.startEvt))
      = some (PC.parseArg, true, some true) := by
  refine ⟨?_, ?_, ?_, ?_⟩ <;> decide

/-- C4 as amended, for a step `s1 → s2` at the end of an execution from `s`:
the flag is changed only by line 54 of `main`, which sets it, and by line 145 of
a handler, which clears it; and when `main` was already past line 54 in `s`, it
still is, a flag that is false in `s` is false in `s1`, and a flag that is false
in `s1` is false in `s2`. -/
theorem C4_flag_monotone_after_init (s : State) (acts : List Act) (s1 : State) (a : Act)
    (s2 : State) (h : run s acts = some s1) (h2 : step s1 a = some s2) :
    (s2.isLooping ≠ s1.isLooping →
      (∃ e, a = Act.main e ∧ s1.pc = PC.initFlag ∧ s2.isLooping = true) ∨
      (∃ i e t, a = Act.handler i e ∧ s1.handlers.get? i = some t ∧ t.pc = HPC.setFlag ∧
        s2.isLooping = false)) ∧
    (pastInit s.pc = true →
      pastInit s1.pc = true ∧ pastInit s2.pc = true ∧
      (s.isLooping = false → s1.isLooping = false) ∧
      (s1.isLooping = false → s2.isLooping = false)) := by
  refine ⟨flag_writers s1 a s2 h2, ?_⟩
  intro hp
  have hp1 := pastInit_run s acts s1 hp h
  refine ⟨hp1, pastInit_step s1 a s2 hp1 h2, ?_, ?_⟩
  · intro hfl
    exact (ShutdownInv_run s acts s1 hfl hp h).1
  · intro hfl
    exact (ShutdownInv_step s1 s1 a s2 (ShutdownInv_refl s1 hfl hp1) h2).1

/-- An execution for C4: Ctrl+C arrives while the spawned target runs, and the
next step of `main`, the return of its wait, leaves the flag false. -/
theorem C4_flag_monotone_after_init_witness :
    ∃ s1 s2, run (stateAfter argvSpawn (mainSteps 8)) (request CTRL_C_EVENT 0) = some s1 ∧
      step s1 (Act.main okEnv) = some s2 ∧
      (stateAfter argvSpawn (mainSteps 8)).isLooping = true ∧
      s1.isLooping = false ∧ s2.isLooping = false ∧ pastInit s2.pc = true := by
  have h1 : (run (stateAfter argvSpawn (mainSteps 8)) (request CTRL_C_EVENT 0)).map
      (fun t => t.isLooping) = some false := by decide
  obtain ⟨s1, hs1, hv1⟩ := Option.map_eq_some'.mp h1
  have h2 : ((run (stateAfter argvSpawn (mainSteps 8)) (request CTRL_C_EVENT 0)).bind
      fun t => step t (Act.main okEnv)).isSome = true := by decide
  rw [hs1, Option.some_bind] at h2
  obtain ⟨s2, hs2⟩ := Option.isSome_iff_exists.mp h2
  have h4 := (C4_flag_monotone_after_init _ _ s1 _ s2 hs1 hs2).2 (by decide)
  exact ⟨s1, s2, hs1, hs2, by decide, hv1, h4.2.2.2 hv1, h4.2.1⟩

/-! ## The restart delay -/

theorem waitAny_isSome (g : Shared) (te : Bool) (r : WaitResult × Option Bool)
    (h : waitAny g te = some r) : r.2.isSome = g.startEvt.isSome := by
  unfold waitAny at h
  rcases hg : g.startEvt with _ | (_ | _) <;> rw [hg] at h <;> simp only at h
  · cases h; rfl
  · split_ifs at h; cases h; rfl
  · cases h; rfl

theorem waitTimed_isSome (evt : Option Bool) (el : Bool) (r : WaitResult × Option Bool)
    (h : waitTimed evt el = some r) : r.2.isSome = evt.isSome := by
  unfold waitTimed at h
  rcases evt with _ | (_ | _) <;> simp only at h
  · cases h; rfl
  · split_ifs at h; cases h; rfl
  · cases h; rfl

theorem EventsInv_init (argv : List (List Char)) : EventsInv (init argv) := by
  simp [EventsInv, init, pastCreateStart, pastCreateEnd, pastRegister]

theorem EventsInv_step (s : State) (a : Act) (s1 : State) (hi : EventsInv s)
    (h : step s a = some s1) : EventsInv s1 := by
  by_cases ha : ∃ e, a = Act.main e
  · obtain ⟨e, rfl⟩ := ha
    simp only [step] at h
    unfold EventsInv at hi ⊢
    obtain ⟨⟨fl, se, ee⟩, argv, pc, reg, pid, hp1, ht, nh, ops, ots, te, hs, tr⟩ := s
    cases pc <;>
      simp only [mainStep, State.emit, State.goto, Option.map_eq_some'] at h <;>
      (try split_ifs at h) <;>
      (try (obtain ⟨r, hr, h⟩ := h)) <;>
      (try have hw := waitAny_isSome _ _ _ hr) <;>
      (try have hw := waitTimed_isSome _ _ _ hr) <;>
      (try subst h) <;>
      simp_all [pastCreateStart, pastCreateEnd, pastRegister, setEvent]
  · obtain ⟨h1, -, -, -, -, -, -, h8, h9, h10⟩ :=
      step_other_frame s s1 a h (fun e he => ha ⟨e, he⟩)
    unfold EventsInv at hi ⊢
    rw [h1, h8, h9, h10]; exact hi

theorem EventsInv_run (argv : List (List Char)) (acts : List Act) (s : State)
    (h : run (init argv) acts = some s) : EventsInv s :=
  run_invariant EventsInv (fun s a s1 hi hs => EventsInv_step s a s1 hi hs) acts _ s
    (EventsInv_init argv) h

theorem PreemptInv_step (base s : State) (a : Act) (s1 : State)
    (hb : atDelay base.pc = true) (hi : PreemptInv base s) (h : step s a = some s1) :
    PreemptInv base s1 := by
  by_cases ha : ∃ e, a = Act.main e
  · obtain ⟨e, rfl⟩ := ha
    simp only [step] at h
    obtain ⟨hfl, hi⟩ := hi
    obtain ⟨⟨fl, se, ee⟩, argv, pc, reg, pid, hp1, ht, nh, ops, ots, te, hs, tr⟩ := s
    simp only at hfl hi
    subst hfl
    rcases hi with ⟨hpc, hse, htr⟩ | ⟨hpc, htr⟩ | ⟨hpc, htr⟩ | ⟨hpc, htr⟩
    · subst hse htr
      rw [← hpc] at hb
      cases pc <;> simp only [atDelay] at hb <;> (try cases hb) <;>
        simp only [mainStep, waitTimed, State.emit, State.goto, Option.map_some',
          Option.some.injEq] at h <;>
        subst h <;>
        exact ⟨rfl, Or.inr (Or.inl ⟨rfl, rfl⟩)⟩
    · subst hpc htr
      simp only [mainStep, State.goto, Option.some.injEq] at h
      subst h
      exact ⟨rfl, Or.inr (Or.inr (Or.inl ⟨rfl, rfl⟩))⟩
    · subst hpc htr
      simp only [mainStep, State.emit, State.goto, Option.some.injEq] at h
      subst h
      refine ⟨rfl, Or.inr (Or.inr (Or.inr ⟨rfl, ?_⟩))⟩
      simp [preemptedEvents]
    · subst hpc
      simp [mainStep] at h
  · obtain ⟨h1, h2, -, -, -, h6, h7, -⟩ := step_other_frame s s1 a h (fun e he => ha ⟨e, he⟩)
    obtain ⟨hfl, hi⟩ := hi
    refine ⟨?_, ?_⟩
    · rcases h6 with h6 | h6
      · rw [h6]; exact hfl
      · exact h6
    · rw [h1, h2]
      rcases hi with ⟨hpc, hse, htr⟩ | hi
      · exact Or.inl ⟨hpc, h7 hse, htr⟩
      · exact Or.inr hi

/-- C6: in every reachable state in which `main` is blocked in the restart
delay (line 92 after the attached target, line 129 after a spawned one).  First
part: a `CTRL_C_EVENT` or `CTRL_CLOSE_EVENT` notification whose handler runs up
to its `SetEvent` while `main` is in the delay leaves `main` in the delay with
`isLooping` false and the shutdown-request event signaled.  Second part: when
shutdown has been requested in that sense, the wait returns `WAIT_OBJECT_0`,
that is because of the event, whether or not the 5000 ms have elapsed; the next
two steps of `main` signal the completion event and return `EXIT_SUCCESS`; and
in every continuation, whatever the handlers and the target do in between,
`main` performs a prefix of that sequence and nothing else, so no
`CreateProcessA`. -/
theorem C6_delay_preempted (argv : List (List Char)) (acts : List Act) (s : State)
    (hr : run (init argv) acts = some s) (hpc : atDelay s.pc = true) :
    (∀ dwType, handles dwType = true →
      ∃ s1, run s (request dwType s.handlers.length) = some s1 ∧
        s1.pc = s.pc ∧ s1.trace = s.trace ∧ s1.isLooping = false ∧
        s1.startEvt = some true) ∧
    (s.isLooping = false → s.startEvt = some true →
      (∀ e : Env, ∃ s1, mainStep s e = some s1 ∧ s1.pc = PC.loopGuard ∧
        s1.trace = s.trace ++ [Ev.waitForSingleObject 5000 WaitResult.object0]) ∧
      (∀ e1 e2 e3 : Env, ∃ s3, run s [Act.main e1, Act.main e2, Act.main e3] = some s3 ∧
        s3.pc = PC.done EXIT_SUCCESS ∧ s3.endEvt = some true ∧
        s3.trace = s.trace ++ [Ev.waitForSingleObject 5000 WaitResult.object0, Ev.setEvent,
          Ev.exit EXIT_SUCCESS]) ∧
      (∀ acts1 s1, run s acts1 = some s1 →
        ∃ extra, s1.trace = s.trace ++ extra ∧
          extra <+: [Ev.waitForSingleObject 5000 WaitResult.object0, Ev.setEvent,
            Ev.exit EXIT_SUCCESS] ∧
          extra.any isSpawn = false)) := by
  obtain ⟨hes, hei, hreg⟩ := EventsInv_run argv acts s hr
  refine ⟨?_, ?_⟩
  · intro dwType hk
    obtain ⟨⟨fl, se, ee⟩, argv, pc, reg, pid, hp1, ht, nh, ops, ots, te, hs, tr⟩ := s
    simp only at hpc hes hreg
    cases pc <;> simp only [atDelay] at hpc <;> (try cases hpc) <;>
      simp only [pastCreateStart, pastRegister, true_implies] at hes hreg <;>
      obtain ⟨b, rfl⟩ := Option.isSome_iff_exists.mp hes <;>
      subst hreg <;>
      simp [request, run, step, handlerStep, handlerStepShared, hk, setEvent]
  · intro hfl hev
    refine ⟨?_, ?_, ?_⟩
    · intro e
      obtain ⟨⟨fl, se, ee⟩, argv, pc, reg, pid, hp1, ht, nh, ops, ots, te, hs, tr⟩ := s
      simp only at hpc hfl hev
      subst hfl hev
      cases pc <;> simp only [atDelay] at hpc <;> (try cases hpc) <;>
        exact ⟨_, rfl, rfl, rfl⟩
    · intro e1 e2 e3
      obtain ⟨⟨fl, se, ee⟩, argv, pc, reg, pid, hp1, ht, nh, ops, ots, te, hs, tr⟩ := s
      simp only at hpc hfl hev hei
      subst hfl hev
      cases pc <;> simp only [atDelay] at hpc <;> (try cases hpc) <;>
        simp only [pastCreateEnd, true_implies] at hei <;>
        obtain ⟨b, rfl⟩ := Option.isSome_iff_exists.mp hei <;>
        exact ⟨_, rfl, rfl, rfl, by simp [State.emit, State.goto, RESTART_DELAY]⟩
    · intro acts1 s1 h1
      have hinv : PreemptInv s s1 :=
        run_invariant (PreemptInv s)
          (fun t a t1 hi ht => PreemptInv_step s t a t1 hpc hi ht)
          acts1 s s1 ⟨hfl, Or.inl ⟨rfl, hev, rfl⟩⟩ h1
      obtain ⟨-, ⟨-, -, htr⟩ | ⟨-, htr⟩ | ⟨-, htr⟩ | ⟨-, htr⟩⟩ := hinv
      · exact ⟨[], by simp [htr], by simp, by simp⟩
      · exact ⟨_, htr, by simp [preemptedEvents, RESTART_DELAY],
          by simp [preemptedEvents, isSpawn]⟩
      · exact ⟨_, htr, by simp [preemptedEvents, RESTART_DELAY],
          by simp [preemptedEvents, isSpawn]⟩
      · exact ⟨_, htr, by simp [preemptedEvents, RESTART_DELAY, EXIT_SUCCESS],
          by simp [preemptedEvents, isSpawn]⟩

/-- An execution for C6: the spawned target terminates, `main` reports it,
closes its handles and enters the restart delay (state `s0`); Ctrl+C then
arrives, and the handler clears the flag and signals the event while `main` is
still in the delay (state `s`).  `main` returns `EXIT_SUCCESS` with the
completion event signaled and without another spawn (state `s3`). -/
theorem C6_delay_preempted_witness :
    ∃ s0 s s3, run (init argvSpawn) execDelay = some s0 ∧ s0.pc = PC.spDelay ∧
      s0.isLooping = true ∧
      run s0 (request CTRL_C_EVENT s0.handlers.length) = some s ∧
      run (init argvSpawn) (execDelay ++ request CTRL_C_EVENT s0.handlers.length) = some s ∧
      s.pc = PC.spDelay ∧ s.isLooping = false ∧ s.startEvt = some true ∧
      run s (mainSteps 3) = some s3 ∧
      s3.pc = PC.done EXIT_SUCCESS ∧ s3.endEvt = some true ∧
      s3.trace = s.trace ++ [Ev.waitForSingleObject 5000 WaitResult.object0, Ev.setEvent,
        Ev.exit EXIT_SUCCESS] := by
  have h0 : (run (init argvSpawn) execDelay).map (fun t => (t.pc, t.isLooping))
      = some (PC.spDelay, true) := by decide
  obtain ⟨s0, hs0, hv0⟩ := Option.map_eq_some'.mp h0
  simp only [Prod.mk.injEq] at hv0
  obtain ⟨s, hs, h1, -, h3, h4⟩ :=
    (C6_delay_preempted _ _ s0 hs0 (by rw [hv0.1]; rfl)).1 CTRL_C_EVENT (by decide)
  have hrs : run (init argvSpawn) (execDelay ++ request CTRL_C_EVENT s0.handlers.length)
      = some s := by
    rw [run_append, hs0]; exact hs
  have hpc : s.pc = PC.spDelay := by rw [h1, hv0.1]
  obtain ⟨s3, h5⟩ := ((C6_delay_preempted _ _ s hrs (by rw [hpc]; rfl)).2 h3 h4).2.1
    okEnv okEnv okEnv
  exact ⟨s0, s, s3, hs0, hv0.1, hv0.2, hs, hrs, hpc, h3, h4, h5⟩

/-! ## The argument check -/

/-- C1, failing inputs.  With the empty string as process id, `strtol` converts
nothing and leaves `end` at the start of the string, `strnlen_s` yields `0`, the
test `argv[2] + len > end` of line 64 is false, nothing is printed, and `main`
calls `OpenProcess` with the process id `0`. -/
theorem C1_empty_process_id_is_opened :
    strtol [] = (0, 0) ∧ strnlen_s [] 128 = 0 ∧
    ((run (init (argvAttach "")) (mainSteps 6)).map fun s => (s.pc, s.pid, s.trace))
      = some (PC.openProc, 0, [Ev.print Msg.banner, Ev.setConsoleCtrlHandler true,
          Ev.createEvent, Ev.createEvent]) ∧
    ((run (init (argvAttach "")) (mainSteps 6 ++ [Act.main invalidParameterEnv])).map
        fun s => (s.pc, s.trace.drop 4))
      = some (PC.done EXIT_FAILURE, [Ev.openProcess 0 false, Ev.print (Msg.attachFailed 0 87),
          Ev.exit EXIT_FAILURE]) := by
  refine ⟨?_, ?_, ?_, ?_⟩ <;> decide

set_option maxRecDepth 20000 in
/-- A process id argument of 128 zeros followed by `junk` passes the check of
line 64 as well: `strnlen_s` stops at its bound of 128, which is where `strtol`
stopped, and `main` calls `OpenProcess`. -/
theorem long_process_id_is_opened :
    strnlen_s (argvLong.getD 2 []) 128 = 128 ∧ (strtol (argvLong.getD 2 [])).2 = 128 ∧
    ((run (init argvLong) (mainSteps 7)).map fun s => (s.pc, s.trace.drop 4))
      = some (PC.attWait, [Ev.openProcess 0 true, Ev.print (Msg.attached 0)]) := by
  refine ⟨?_, ?_, ?_⟩ <;> decide

/-! ## A shutdown request made before line 54 -/

/-- C5, failing execution.  `ProcessRunner cmd` with Ctrl+C arriving between
lines 48 and 52: when `main` enters the wait of line 117 the target is running,
the shutdown-request event is signaled and `isLooping` is true again.  The wait
returns for the event, and `main` queries the exit code, prints that the process
terminated, closes both handles, sits out the restart delay and spawns a second
process; it neither signals the completion event nor returns. -/
theorem C5_stale_request_is_reported_as_exit :
    ((run (init argvSpawn) execEarlyRequestSpawn).map
        fun s => (s.pc, s.isLooping, s.startEvt, s.targetExited))
      = some (PC.spWait, true, some true, false) ∧
    ((run (init argvSpawn) (execEarlyRequestSpawn ++ iterationSpawned)).map
        fun s => (s.pc, s.targetExited, s.endEvt, s.trace.drop 7))
      = some (PC.spWait, false, some false,
          [Ev.waitForMultipleObjects WaitResult.object0,
            Ev.getExitCodeProcess 1 true, Ev.print (Msg.terminated 259),
            Ev.closeHandle 1, Ev.closeHandle 2,
            Ev.waitForSingleObject 5000 WaitResult.timeout,
            Ev.print Msg.starting, Ev.createProcess "cmd".toList true,
            Ev.print (Msg.attached 0)]) := by
  refine ⟨?_, ?_⟩ <;> decide

/-- C10, failing execution.  `ProcessRunner cmd 1234` with Ctrl+C arriving
between lines 48 and 52: the wait of line 81 is satisfied by the
shutdown-request event while process 1234 is running, line 83 reads `isLooping`
as true, and `main` calls `HandleProcessExit`, closes the handle, sits out the
restart delay and spawns a replacement. -/
theorem C10_flag_read_misjudges_wake :
    ((run (init (argvAttach "1234")) execEarlyRequestAttach).map
        fun s => (s.pc, s.isLooping, s.startEvt, s.targetExited))
      = some (PC.attWait, true, some true, false) ∧
    ((run (init (argvAttach "1234")) (execEarlyRequestAttach ++ mainSteps 2)).map
        fun s => (s.pc, s.targetExited, s.trace.drop 6))
      = some (PC.attReport, false, [Ev.waitForMultipleObjects WaitResult.object0]) ∧
    ((run (init (argvAttach "1234")) (execEarlyRequestAttach ++ iterationAttached)).map
        fun s => (s.pc, s.trace.drop 6))
      = some (PC.spWait,
          [Ev.waitForMultipleObjects WaitResult.object0,
            Ev.getExitCodeProcess 1 true, Ev.print (Msg.terminated 259),
            Ev.closeHandle 1,
            Ev.waitForSingleObject 5000 WaitResult.timeout,
            Ev.print Msg.starting, Ev.createProcess "cmd".toList true,
            Ev.print (Msg.attached 0)]) := by
  refine ⟨?_, ?_, ?_⟩ <;> decide

/-! ## The handler run on its own -/

/-- C9, failing input.  Ctrl+C delivered after line 42, where the handler is
registered, and before line 48, when `startShutdownHandle` is still `NULL`: the
handler returns `TRUE` and leaves the flag false, but its `SetEvent` has no
event to signal, in the function `ConsoleHandler` as in the execution of the
handler thread; `main` then creates the event unsignaled and sets the flag, so
that nothing is left of the request. -/
theorem C9_handler_before_event_creation :
    (stateAfter argvSpawn (mainSteps 2)).registered = true ∧
    ConsoleHandler CTRL_C_EVENT (stateAfter argvSpawn (mainSteps 2)).toShared
      = (true, { isLooping := false, startEvt := none, endEvt := none }) ∧
    ((run (init argvSpawn) (mainSteps 2 ++ request CTRL_C_EVENT 0 ++ [Act.handler 0 okEnv])).map
        fun s => (s.pc, s.toShared, s.handlers))
      = some (PC.createStart, { isLooping := false, startEvt := none, endEvt := none },
          [{ dwType := CTRL_C_EVENT, pc := HPC.returned true }]) ∧
    ((run (init argvSpawn)
        (mainSteps 2 ++ request CTRL_C_EVENT 0 ++ [Act.handler 0 okEnv] ++ mainSteps 3)).map
        fun s => (s.pc, s.toShared))
      = some (PC.parseArg, { isLooping := true, startEvt := some false, endEvt := some false })
    := by
  refine ⟨?_, ?_, ?_, ?_⟩ <;> decide

/-- The function `ConsoleHandler` is what a handler thread does when it runs
from entry to return with no other thread in between. -/
theorem handlerAlone_eq_ConsoleHandler (dwType : Nat) (g : Shared) :
    handlerAlone 4 g { dwType := dwType, pc := HPC.entry } =
      ((ConsoleHandler dwType g).2,
        { dwType := dwType, pc := HPC.returned (ConsoleHandler dwType g).1 }) := by
  obtain ⟨fl, se, ee⟩ := g
  by_cases hk : handles dwType = true
  · rcases ee with _ | (_ | _) <;>
      simp [handlerAlone, handlerStepShared, ConsoleHandler, hk, waitTimed, timeoutEnv]
  · simp [handlerAlone, handlerStepShared, ConsoleHandler, hk]

/-- The contract of `ConsoleHandler` run on its own, in every state of the
globals: it returns `TRUE` exactly for `CTRL_C_EVENT` and `CTRL_CLOSE_EVENT`,
whatever the state of the completion event it waits for; for these two kinds it
leaves the flag false and the shutdown-request event, when `main` has created
it, signaled, and a second invocation changes neither; for every other kind it
returns `FALSE` and changes nothing. -/
theorem ConsoleHandler_contract (dwType : Nat) (g : Shared) :
    ((ConsoleHandler dwType g).1 = true ↔
      (dwType = CTRL_C_EVENT ∨ dwType = CTRL_CLOSE_EVENT)) ∧
    ((dwType = CTRL_C_EVENT ∨ dwType = CTRL_CLOSE_EVENT) →
      (ConsoleHandler dwType g).2.isLooping = false ∧
      (∀ b, g.startEvt = some b → (ConsoleHandler dwType g).2.startEvt = some true) ∧
      (ConsoleHandler dwType (ConsoleHandler dwType g).2).2.isLooping =
        (ConsoleHandler dwType g).2.isLooping ∧
      (ConsoleHandler dwType (ConsoleHandler dwType g).2).2.startEvt =
        (ConsoleHandler dwType g).2.startEvt) ∧
    (¬ (dwType = CTRL_C_EVENT ∨ dwType = CTRL_CLOSE_EVENT) →
      ConsoleHandler dwType g = (false, g)) := by
  have hk : handles dwType = true ↔ (dwType = CTRL_C_EVENT ∨ dwType = CTRL_CLOSE_EVENT) := by
    simp [handles]
  obtain ⟨fl, se, ee⟩ := g
  refine ⟨?_, ?_, ?_⟩
  · rw [← hk]
    by_cases h : handles dwType = true <;> simp [ConsoleHandler, h]
  · intro h
    have h1 := hk.mpr h
    refine ⟨?_, ?_, ?_, ?_⟩
    · simp [ConsoleHandler, h1]
    · intro b hb
      simp only at hb
      subst hb
      simp [ConsoleHandler, h1, setEvent]
    · simp [ConsoleHandler, h1]
    · cases se <;> simp [ConsoleHandler, h1, setEvent]
  · intro h
    have h1 : handles dwType = false := by
      cases hh : handles dwType
      · rfl
      · exact absurd (hk.mp hh) h
    simp [ConsoleHandler, h1]

/-- The effect of a shutdown request on the globals: once the handler is
registered and the shutdown-request event exists, a `CTRL_C_EVENT` or
`CTRL_CLOSE_EVENT` notification whose handler runs up to its `SetEvent` leaves
the flag false and the event signaled, and `main` where it was. -/
theorem request_effect (s : State) (dwType : Nat) (b : Bool) (hreg : s.registered = true)
    (hk : handles dwType = true) (hev : s.startEvt = some b) :
    ∃ s1, run s (request dwType s.handlers.length) = some s1 ∧
      s1.isLooping = false ∧ s1.startEvt = some true ∧ s1.pc = s.pc ∧ s1.trace = s.trace := by
  obtain ⟨⟨fl, se, ee⟩, argv, pc, reg, pid, hp, hth, nh, ops, ots, te, hs, tr⟩ := s
  simp only at hreg hev
  subst hreg hev
  simp [request, run, step, handlerStep, handlerStepShared, hk, setEvent]

/-- An execution for `request_effect`: Ctrl+C arrives while the spawned target
runs. -/
theorem request_effect_witness :
    ∃ s1, run (stateAfter argvSpawn (mainSteps 8)) (request CTRL_C_EVENT 0) = some s1 ∧
      s1.isLooping = false ∧ s1.startEvt = some true ∧ s1.pc = PC.spWait := by
  obtain ⟨s1, h1, h2, h3, h4, -⟩ := request_effect (stateAfter argvSpawn (mainSteps 8))
    CTRL_C_EVENT false (by decide) (by decide) (by decide)
  exact ⟨s1, h1, h2, h3, by rw [h4]; decide⟩

theorem countP_zero_any (p : Ev → Bool) (l : List Ev) (h : l.countP p ≤ 0) :
    l.any p = false := by
  have h0 : l.countP p = 0 := by omega
  rw [List.countP_eq_zero] at h0
  cases hany : l.any p with
  | false => rfl
  | true =>
    obtain ⟨x, hx, hpx⟩ := List.any_eq_true.mp hany
    exact absurd hpx (h0 x hx)

/-- The shutdown path of the loop: when `main` stands at the wait of line 81 or
117 with the flag false and the shutdown-request event signaled (a request made
after line 54), the wait returns for the event and `main` closes the target's
handle (and the thread handle of a spawned target), signals the completion
event and returns `EXIT_SUCCESS`; and in every continuation from a state at
that wait in which the flag is false, `main` makes no exit-code query, enters no
restart delay and calls neither `CreateProcessA` nor `OpenProcess`. -/
theorem shutdown_wake_path (s : State) (hpc : atDualWait s.pc = true)
    (hfl : s.isLooping = false) :
    (s.startEvt = some true → s.endEvt.isSome = true →
      ∃ s1, run s (mainSteps (if s.pc = PC.spWait then 7 else 6)) = some s1 ∧
        s1.pc = PC.done EXIT_SUCCESS ∧ s1.endEvt = some true ∧
        s1.trace = s.trace ++ [Ev.waitForMultipleObjects WaitResult.object0] ++
          closeEvents s ++ [Ev.setEvent, Ev.exit EXIT_SUCCESS]) ∧
    (∀ acts s1, run s acts = some s1 →
      ∃ extra, s1.trace = s.trace ++ extra ∧ extra.any isExitQuery = false ∧
        extra.any isDelay = false ∧ extra.any isSpawn = false ∧
        extra.any isAttach = false) := by
  refine ⟨?_, ?_⟩
  · intro hev hend
    obtain ⟨⟨fl, se, ee⟩, argv, pc, reg, pid, hp, hth, nh, ops, ots, te, hs, tr⟩ := s
    simp only at hfl hev hend
    subst hfl hev
    obtain ⟨b, rfl⟩ := Option.isSome_iff_exists.mp hend
    cases pc <;> simp only [atDualWait] at hpc <;> (try cases hpc) <;>
      exact ⟨_, rfl, rfl, rfl, by simp [closeEvents, State.emit, State.goto]⟩
  · intro acts s1 h
    have hp : pastInit s.pc = true := by
      cases hs : s.pc <;> rw [hs] at hpc <;> simp [atDualWait] at hpc <;> rfl
    obtain ⟨-, -, extra, h3, h4, h5, h6, h7⟩ := ShutdownInv_run s acts s1 hfl hp h
    have hb : spawnBudget s.pc = 0 ∧ attachBudget s.pc = 0 ∧ queryBudget s.pc = 0 ∧
        delayBudget s.pc = 0 := by
      cases hs : s.pc <;> rw [hs] at hpc <;> simp [atDualWait] at hpc <;>
        simp [spawnBudget, attachBudget, queryBudget, delayBudget]
    rw [hb.1] at h4
    rw [hb.2.1] at h5
    rw [hb.2.2.1] at h6
    rw [hb.2.2.2] at h7
    exact ⟨extra, h3, countP_zero_any _ _ (by omega), countP_zero_any _ _ (by omega),
      countP_zero_any _ _ (by omega), countP_zero_any _ _ (by omega)⟩

/-- An execution for `shutdown_wake_path`: Ctrl+C arrives while the spawned
target runs. -/
theorem shutdown_wake_path_witness :
    ∃ s1, run (stateAfter argvSpawn (mainSteps 8 ++ request CTRL_C_EVENT 0)) (mainSteps 7)
        = some s1 ∧
      s1.pc = PC.done EXIT_SUCCESS ∧ s1.endEvt = some true ∧
      s1.trace = (stateAfter argvSpawn (mainSteps 8 ++ request CTRL_C_EVENT 0)).trace ++
        [Ev.waitForMultipleObjects WaitResult.object0, Ev.closeHandle 1, Ev.closeHandle 2,
          Ev.setEvent, Ev.exit EXIT_SUCCESS] :=
  (shutdown_wake_path (stateAfter argvSpawn (mainSteps 8 ++ request CTRL_C_EVENT 0))
    (by decide) (by decide)).1 (by decide) (by decide)

/-! ## What woke the wait -/

theorem waitAny_unsignaled (g : Shared) (te : Bool) (r : WaitResult × Option Bool)
    (hg : g.startEvt = some false) (h : waitAny g te = some r) :
    te = true ∧ r = (WaitResult.object1, some false) := by
  unfold waitAny at h
  rw [hg] at h
  simp only at h
  split_ifs at h with hte
  cases h
  exact ⟨hte, rfl⟩

theorem waitTimed_unsignaled (el : Bool) (r : WaitResult × Option Bool)
    (h : waitTimed (some false) el = some r) : r.2 = some false := by
  unfold waitTimed at h
  simp only at h
  split_ifs at h
  cases h
  rfl

theorem NoEarlyRequest_handlerStep (s s1 : State) (i : Nat) (e : Env)
    (hi : NoEarlyRequest s) (h : handlerStep s i e = some s1) : NoEarlyRequest s1 := by
  unfold handlerStep at h
  split at h
  · simp at h
  · rename_i t ht
    simp only [Option.map_eq_some'] at h
    obtain ⟨r, hr, rfl⟩ := h
    have hmem : t ∈ s.handlers := List.get?_mem ht
    unfold handlerStepShared at hr
    unfold NoEarlyRequest at hi ⊢
    split at hr
    · simp only [Option.some.injEq] at hr; subst hr
      intro hfl
      obtain ⟨h1, h2⟩ := hi hfl
      refine ⟨h1, ?_⟩
      intro u hu
      rcases List.mem_or_eq_of_mem_set hu with hu | hu
      · exact h2 u hu
      · subst hu
        simp only
        split <;> simp
    · simp only [Option.some.injEq] at hr; subst hr
      intro hfl
      simp at hfl
    · rename_i hpc
      simp only [Option.some.injEq] at hr; subst hr
      intro hfl
      exact absurd hpc ((hi hfl).2 t hmem)
    · simp only [Option.map_eq_some'] at hr
      obtain ⟨w, -, rfl⟩ := hr
      intro hfl
      obtain ⟨h1, h2⟩ := hi hfl
      refine ⟨h1, ?_⟩
      intro u hu
      rcases List.mem_or_eq_of_mem_set hu with hu | hu
      · exact h2 u hu
      · subst hu; simp
    · simp at hr

theorem SoundInv_step (s : State) (a : Act) (s1 : State) (hi : SoundInv s)
    (h : step s a = some s1) : SoundInv s1 := by
  cases a with
  | main e =>
    simp only [step] at h
    obtain ⟨hp, hev, hne, hc, hr⟩ := hi
    unfold SoundInv NoEarlyRequest LastWaitWasTarget at *
    obtain ⟨⟨fl, se, ee⟩, argv, pc, reg, pid, hp1, ht, nh, ops, ots, te, hs, tr⟩ := s
    simp only at hp hev hne hc hr
    obtain ⟨b, rfl⟩ := Option.isSome_iff_exists.mp hev
    cases fl
    · cases pc <;> (try simp [pastInit] at hp) <;>
        simp only [mainStep, State.emit, State.goto, Option.map_eq_some'] at h <;>
        (try split_ifs at h) <;>
        (try (obtain ⟨r, hw, h⟩ := h)) <;>
        (try have hw1 := waitAny_isSome _ _ _ hw) <;>
        (try have hw1 := waitTimed_isSome _ _ _ hw) <;>
        (try subst h) <;>
        simp_all [pastInit, atFlagTest, atReport]
    · obtain ⟨hb, hh⟩ := hne rfl
      simp only [Option.some.injEq] at hb
      subst hb
      cases pc <;> (try simp [pastInit] at hp) <;>
        simp only [mainStep, State.emit, State.goto, Option.map_eq_some'] at h <;>
        (try split_ifs at h) <;>
        (try (obtain ⟨r, hw, h⟩ := h)) <;>
        (try have hw1 := waitAny_unsignaled _ _ _ rfl hw) <;>
        (try have hw1 := waitTimed_unsignaled _ _ hw) <;>
        (try subst h) <;>
        simp_all [pastInit, atFlagTest, atReport]
  | ctrl k =>
    simp only [step] at h
    split at h
    · simp only [Option.some.injEq] at h; subst h
      obtain ⟨hp, hev, hne, hc, hr⟩ := hi
      refine ⟨hp, hev, ?_, hc, hr⟩
      intro hfl
      obtain ⟨h1, h2⟩ := hne hfl
      refine ⟨h1, ?_⟩
      intro t ht
      simp only [List.mem_append, List.mem_singleton] at ht
      rcases ht with ht | ht
      · exact h2 t ht
      · subst ht; simp
    · simp at h
  | handler i e =>
    simp only [step] at h
    obtain ⟨hp, hev, hne, hc, hr⟩ := hi
    obtain ⟨h1, h2, -, -, -, -, h7, h8, -, h10, -⟩ := handlerStep_frame s s1 i e h
    refine ⟨by rw [h1]; exact hp, by rw [h10]; exact hev,
      NoEarlyRequest_handlerStep s s1 i e hne h, ?_, ?_⟩
    · intro hc1 hfl
      rw [h1] at hc1
      have hfl0 : s.isLooping = true := by
        rcases h8 with h8 | h8
        · rw [← h8]; exact hfl
        · rw [h8] at hfl; cases hfl
      unfold LastWaitWasTarget at hc ⊢
      rw [h7, h2]
      exact hc hc1 hfl0
    · intro hr1
      rw [h1] at hr1
      unfold LastWaitWasTarget at hr ⊢
      rw [h7, h2]
      exact hr hr1
  | targetExit =>
    simp only [step] at h
    split at h
    · simp at h
    · simp only [Option.some.injEq] at h; subst h
      obtain ⟨hp, hev, hne, hc, hr⟩ := hi
      refine ⟨hp, hev, hne, ?_, ?_⟩
      · intro h1 h2
        exact ⟨rfl, (hc h1 h2).2⟩
      · intro h1
        exact ⟨rfl, (hr h1).2⟩

theorem SoundInv_after_init (argv : List (List Char)) (s0 : State)
    (h : run (init argv) (mainSteps 5) = some s0) : SoundInv s0 := by
  by_cases hlen : argv.length < 2 ∨ argv.length > 3
  · simp [mainSteps, List.replicate, run, step, mainStep, init, hlen, State.emit,
      State.goto] at h
  · simp [mainSteps, List.replicate, run, step, mainStep, init, hlen, State.emit,
      State.goto, okEnv] at h
    subst h
    simp [SoundInv, NoEarlyRequest, pastInit, atFlagTest, atReport]

/-- When no console notification is delivered before `main` has executed line
54, reading the flag is a sound way to tell what woke the wait: in every
execution that starts with the five steps of `main` up to and including line
54, whenever `main` is about to call `HandleProcessExit` (line 85 or 121) the
target has terminated and the wait that `main` has just left returned for the
process handle. -/
theorem wake_reading_sound (argv : List (List Char)) (acts : List Act) (s : State)
    (h : run (init argv) (mainSteps 5 ++ acts) = some s) (hr : atReport s.pc = true) :
    s.targetExited = true ∧
      s.trace.getLast? = some (Ev.waitForMultipleObjects WaitResult.object1) := by
  rw [run_append] at h
  cases h0 : run (init argv) (mainSteps 5) with
  | none => rw [h0] at h; simp at h
  | some s0 =>
    rw [h0, Option.some_bind] at h
    have hinv : SoundInv s :=
      run_invariant SoundInv (fun t a t1 hi ht => SoundInv_step t a t1 hi ht) acts s0 s
        (SoundInv_after_init argv s0 h0) h
    exact hinv.2.2.2.2 hr

/-- An execution for `wake_reading_sound`: the spawned target terminates and
`main` is about to report it. -/
theorem wake_reading_sound_witness :
    ∃ s, run (init argvSpawn) (mainSteps 5 ++ (mainSteps 3 ++ [Act.targetExit] ++ mainSteps 2))
        = some s ∧
      s.pc = PC.spReport ∧ s.targetExited = true ∧
      s.trace.getLast? = some (Ev.waitForMultipleObjects WaitResult.object1) := by
  have hp : (run (init argvSpawn)
      (mainSteps 5 ++ (mainSteps 3 ++ [Act.targetExit] ++ mainSteps 2))).map State.pc
      = some PC.spReport := by decide
  obtain ⟨s, hs, hv⟩ := Option.map_eq_some'.mp hp
  have hw := wake_reading_sound _ _ s hs (by rw [hv]; rfl)
  exact ⟨s, hs, hv, hw.1, hw.2⟩

/-! ## The argument check on short arguments -/

theorem drop_skipSpaces (s : List Char) : s.drop (skipSpaces s) = s.dropWhile isspace := by
  induction s with
  | nil => rfl
  | cons c cs ih =>
    by_cases hc : isspace c = true
    · simp [skipSpaces, hc, List.dropWhile, ih]
    · simp [skipSpaces, hc, List.dropWhile]

theorem skipSpaces_le (s : List Char) : skipSpaces s ≤ s.length := by
  induction s with
  | nil => simp [skipSpaces]
  | cons c cs ih =>
    by_cases hc : isspace c = true
    · simp [skipSpaces, hc]; omega
    · simp [skipSpaces, hc]

theorem drop_signLen (l : List Char) : l.drop (signLen l) = stripSign l := by
  cases l with
  | nil => rfl
  | cons c cs =>
    by_cases hc : (c.toNat == 45 || c.toNat == 43) = true
    · simp [signLen, stripSign, hc]
    · simp [signLen, stripSign, hc]

theorem signLen_le (l : List Char) : signLen l ≤ l.length := by
  cases l with
  | nil => simp [signLen]
  | cons c cs =>
    by_cases hc : (c.toNat == 45 || c.toNat == 43) = true
    · simp [signLen, hc]
    · simp [signLen, hc]

theorem digitCount_le (l : List Char) : digitCount l ≤ l.length := by
  induction l with
  | nil => simp [digitCount]
  | cons c cs ih =>
    by_cases hc : isdigit c = true
    · simp [digitCount, hc]; omega
    · simp [digitCount, hc]

theorem digitCount_eq_length (l : List Char) :
    digitCount l = l.length ↔ l.all isdigit = true := by
  induction l with
  | nil => simp [digitCount]
  | cons c cs ih =>
    by_cases hc : isdigit c = true
    · simp [digitCount, hc, ih]
    · simp [digitCount, hc]

/-- The offset at which `strtol` stops never exceeds the length of the string,
and it reaches the end of a non-empty string exactly when the string is a clean
decimal integer. -/
theorem strtol_end (s : List Char) :
    (strtol s).2 ≤ s.length ∧
    (s ≠ [] → ((strtol s).2 = s.length ↔ cleanDecimal s = true)) := by
  have h1 := drop_skipSpaces s
  have h2 := skipSpaces_le s
  have h3 := drop_signLen (s.drop (skipSpaces s))
  have h4 := signLen_le (s.drop (skipSpaces s))
  have h5 := digitCount_le ((s.drop (skipSpaces s)).drop (signLen (s.drop (skipSpaces s))))
  have h6 := digitCount_eq_length
    ((s.drop (skipSpaces s)).drop (signLen (s.drop (skipSpaces s))))
  have hlen : ((s.drop (skipSpaces s)).drop (signLen (s.drop (skipSpaces s)))).length =
      s.length - skipSpaces s - signLen (s.drop (skipSpaces s)) := by
    rw [List.length_drop, List.length_drop]
  have hl2 : (s.drop (skipSpaces s)).length = s.length - skipSpaces s := by
    simp [List.length_drop]
  have hclean : cleanDecimal s =
      (!((s.drop (skipSpaces s)).drop (signLen (s.drop (skipSpaces s)))).isEmpty &&
        ((s.drop (skipSpaces s)).drop (signLen (s.drop (skipSpaces s)))).all isdigit) := by
    unfold cleanDecimal
    rw [h3, h1]
  generalize hbody : (s.drop (skipSpaces s)).drop (signLen (s.drop (skipSpaces s))) = body
    at h5 h6 hlen hclean
  rw [hl2] at h4
  have hst : (strtol s).2 =
      if digitCount body = 0 then 0
      else skipSpaces s + signLen (s.drop (skipSpaces s)) + digitCount body := by
    unfold strtol
    simp only [hbody]
    split <;> rfl
  refine ⟨?_, ?_⟩
  · rw [hst]; split <;> omega
  · intro hne
    have hpos : 0 < s.length := List.length_pos.mpr hne
    rw [hst, hclean]
    constructor
    · intro h
      split at h
      · omega
      · rename_i hdc
        have hfull : digitCount body = body.length := by omega
        have hnonempty : body ≠ [] := by
          intro hb
          rw [hb] at hdc
          simp [digitCount] at hdc
        simp [h6.mp hfull, hnonempty]
    · intro h
      simp only [Bool.and_eq_true, Bool.not_eq_true', List.isEmpty_eq_false] at h
      have hfull := h6.mpr h.2
      have hbl : 0 < body.length := List.length_pos.mpr (by simpa using h.1)
      rw [if_neg (by omega)]
      omega

/-- The argument check of lines 61 to 68 decides correctly for every non-empty
process id argument of at most 128 characters: when the argument is not a clean
decimal integer, `main` prints the error and returns `EXIT_FAILURE` without
calling `OpenProcess`; when it is one, `main` goes on to `OpenProcess` with the
converted value. -/
theorem argument_check_short (s : State) (e : Env) (a0 a1 arg : List Char)
    (hpc : s.pc = PC.parseArg) (hargv : s.argv = [a0, a1, arg]) (hne : arg ≠ [])
    (hlen : arg.length ≤ 128) :
    ∃ s1, mainStep s e = some s1 ∧
      (cleanDecimal arg = false →
        s1.pc = PC.done EXIT_FAILURE ∧
        s1.trace = s.trace ++ [Ev.print (Msg.invalidPid arg), Ev.exit EXIT_FAILURE]) ∧
      (cleanDecimal arg = true →
        s1.pc = PC.openProc ∧ s1.trace = s.trace ∧ s1.pid = toDWORD (strtol arg).1) := by
  obtain ⟨hle, hiff⟩ := strtol_end arg
  have hiff := hiff hne
  have hmin : strnlen_s arg 128 = arg.length := by
    unfold strnlen_s; omega
  have hstep : mainStep s e =
      if arg.length > (strtol arg).2 then
        some ((({ s with pid := toDWORD (strtol arg).1 }).emit
          [Ev.print (Msg.invalidPid arg), Ev.exit EXIT_FAILURE]).goto (PC.done EXIT_FAILURE))
      else some (({ s with pid := toDWORD (strtol arg).1 }).goto PC.openProc) := by
    unfold mainStep
    rw [hpc]
    simp only [hargv, List.length_cons, List.length_nil, List.getD_cons_succ,
      List.getD_cons_zero, hmin]
    simp
  by_cases hc : cleanDecimal arg = true
  · have hend := hiff.mpr hc
    rw [if_neg (by omega)] at hstep
    refine ⟨_, hstep, ?_, ?_⟩
    · intro h; rw [hc] at h; cases h
    · intro _; exact ⟨rfl, rfl, rfl⟩
  · have hend : (strtol arg).2 < arg.length := by
      have : (strtol arg).2 ≠ arg.length := fun h => hc (hiff.mp h)
      omega
    rw [if_pos hend] at hstep
    refine ⟨_, hstep, ?_, ?_⟩
    · intro _; exact ⟨rfl, rfl⟩
    · intro h; exact absurd h hc

/-- Two runs of `argument_check_short`: `12x` is rejected, `1234` goes on to
`OpenProcess` with process id 1234. -/
theorem argument_check_short_witness :
    (∃ s1, mainStep (stateAfter (argvAttach "12x") (mainSteps 5)) okEnv = some s1 ∧
      s1.pc = PC.done EXIT_FAILURE) ∧
    (∃ s1, mainStep (stateAfter (argvAttach "1234") (mainSteps 5)) okEnv = some s1 ∧
      s1.pc = PC.openProc ∧ s1.pid = 1234) := by
  constructor
  · obtain ⟨s1, h1, h2, -⟩ := argument_check_short
      (stateAfter (argvAttach "12x") (mainSteps 5)) okEnv "ProcessRunner".toList
      "cmd".toList "12x".toList (by decide) (by decide) (by decide) (by decide)
    exact ⟨s1, h1, (h2 (by decide)).1⟩
  · obtain ⟨s1, h1, -, h3⟩ := argument_check_short
      (stateAfter (argvAttach "1234") (mainSteps 5)) okEnv "ProcessRunner".toList
      "cmd".toList "1234".toList (by decide) (by decide) (by decide) (by decide)
    have h4 := h3 (by decide)
    refine ⟨s1, h1, h4.1, ?_⟩
    rw [h4.2.2]
    decide

/-! ## Executions without a shutdown request -/

/-- A property preserved by every action of a given kind holds at the end of
every execution made of such actions. -/
theorem run_invariant_on (P : State → Prop) (A : Act → Bool)
    (hstep : ∀ s a s1, P s → A a = true → step s a = some s1 → P s1) :
    ∀ (acts : List Act) (s s1 : State), P s → acts.all A = true →
      run s acts = some s1 → P s1 := by
  intro acts
  induction acts with
  | nil =>
    intro s s1 hs _ h
    simp only [run, Option.some.injEq] at h
    exact h ▸ hs
  | cons a as ih =>
    intro s s1 hs hall h
    simp only [List.all_cons, Bool.and_eq_true] at hall
    simp only [run] at h
    cases hsa : step s a with
    | none => simp [hsa] at h
    | some s2 =>
      simp only [hsa, Option.some_bind] at h
      exact ih s2 s1 (hstep s a s2 hs hall.1 hsa) hall.2 h

theorem QuietInv_init (argv : List (List Char)) : QuietInv (init argv) := by
  simp [QuietInv, init, pastInit, pastCreateStart]

theorem QuietInv_step (s : State) (a : Act) (s1 : State) (hi : QuietInv s)
    (ha : notRequest a = true) (h : step s a = some s1) : QuietInv s1 := by
  cases a with
  | main e =>
    simp only [step] at h
    obtain ⟨hh, hfl, hev⟩ := hi
    unfold QuietInv
    obtain ⟨⟨fl, se, ee⟩, argv, pc, reg, pid, hp1, ht, nh, ops, ots, te, hs, tr⟩ := s
    simp only at hh hfl hev
    cases pc <;>
      simp only [mainStep, State.emit, State.goto, Option.map_eq_some'] at h <;>
      (try split_ifs at h) <;>
      (try (obtain ⟨r, hw, h⟩ := h)) <;>
      (try simp only [pastCreateStart, true_implies] at hev) <;>
      (try subst hev) <;>
      (try have hw1 := waitAny_unsignaled _ _ _ rfl hw) <;>
      (try have hw1 := waitTimed_unsignaled _ _ hw) <;>
      (try subst h) <;>
      simp_all [pastInit, pastCreateStart]
  | ctrl k =>
    simp only [step] at h
    split at h
    · simp only [Option.some.injEq] at h; subst h
      obtain ⟨hh, hfl, hev⟩ := hi
      refine ⟨?_, hfl, hev⟩
      intro t ht
      simp only [List.mem_append, List.mem_singleton] at ht
      rcases ht with ht | ht
      · exact hh t ht
      · subst ht
        simp only [notRequest, Bool.not_eq_true'] at ha
        exact ⟨ha, Or.inl rfl⟩
    · simp at h
  | handler i e =>
    simp only [step] at h
    obtain ⟨hh, hfl, hev⟩ := hi
    unfold handlerStep at h
    split at h
    · simp at h
    · rename_i t ht
      simp only [Option.map_eq_some'] at h
      obtain ⟨r, hr, rfl⟩ := h
      obtain ⟨hk, hpc⟩ := hh t (List.get?_mem ht)
      unfold handlerStepShared at hr
      rcases hpc with hpc | hpc
      · rw [hpc] at hr
        simp only [hk, Option.some.injEq] at hr
        subst hr
        refine ⟨?_, hfl, hev⟩
        intro u hu
        rcases List.mem_or_eq_of_mem_set hu with hu | hu
        · exact hh u hu
        · subst hu; exact ⟨hk, Or.inr rfl⟩
      · rw [hpc] at hr
        simp at hr
  | targetExit =>
    simp only [step] at h
    split at h
    · simp at h
    · simp only [Option.some.injEq] at h; subst h
      exact hi

/-- In an execution from program start in which no `CTRL_C_EVENT` and no
`CTRL_CLOSE_EVENT` notification is delivered, whenever `main` is past line 54
the flag is true and the shutdown-request event is unsignaled; stated here at
the waits of lines 81 and 117, where the restart sequence starts. -/
theorem no_request_state (argv : List (List Char)) (acts : List Act) (s : State)
    (h : run (init argv) acts = some s) (hq : acts.all notRequest = true)
    (hp : atDualWait s.pc = true) :
    s.isLooping = true ∧ s.startEvt = some false := by
  have hi : QuietInv s :=
    run_invariant_on QuietInv notRequest
      (fun t a t1 hi ha ht => QuietInv_step t a t1 hi ha ht) acts _ s (QuietInv_init argv) hq h
  obtain ⟨-, hfl, hev⟩ := hi
  cases hs : s.pc <;> rw [hs] at hp hfl hev <;> simp [atDualWait] at hp <;>
    exact ⟨hfl rfl rfl, hev rfl⟩

/-- An execution for `no_request_state`: `ProcessRunner cmd` up to the wait for
its spawned target, a `CTRL_BREAK_EVENT` (1) being delivered on the way. -/
theorem no_request_state_witness :
    ∃ s, run (init argvSpawn) (mainSteps 6 ++ [Act.ctrl 1, Act.handler 0 okEnv] ++ mainSteps 2)
        = some s ∧
      s.pc = PC.spWait ∧ s.isLooping = true ∧ s.startEvt = some false := by
  have hp : (run (init argvSpawn)
      (mainSteps 6 ++ [Act.ctrl 1, Act.handler 0 okEnv] ++ mainSteps 2)).map State.pc
      = some PC.spWait := by decide
  obtain ⟨s, hs, hv⟩ := Option.map_eq_some'.mp hp
  have hn := no_request_state _ _ s hs (by decide) (by rw [hv]; rfl)
  exact ⟨s, hs, hv, hn.1, hn.2⟩

end ProcessRunner
